import Mathlib

/-!
Verification of the match-game state machine in `matching_game.py`
(`Tile`, `GameState`, `ScienceGame.handle_click`, `ScienceGame.update_tiles`,
`ScienceGame.setup_level`, `ScienceGame.start_next_level` and the in-game
portion of `ScienceGame.run`).

Modelling conventions:
* Timestamps and durations are rationals (`ℚ`); the Python code passes
  `time.time()` values around and never does anything non-exact with them.
* Colors are RGB triples of naturals, exactly as the Python literals.
* The tile dictionary `self.tiles : Dict[(row, col), Tile]` is an association
  list keyed by `(row, col)`; `random.shuffle` outcomes and
  `random.choice(SCIENCE_MESSAGES)` picks are passed in as explicit
  parameters (a shuffled list, a message index), so the engine is a pure
  function of its inputs.
* `handle_click` returns `Option GameState`: `none` models the places where
  the Python method can raise (`ZeroDivisionError` when `tile_size == 0`,
  `KeyError` when the remembered `selected_tile` key is absent from the
  dictionary); every silent `return` in the Python code is `some` of the
  unchanged state.
* Presentation-only state (pygame rects, fonts, particles, buttons, the
  `best_time = float('inf')` bookkeeping that no claim touches) is omitted;
  every field read or written by the game logic is kept.
-/

section
/- Batteries marks the `Rat` field operations `@[irreducible]`, which blocks
`decide`/`rfl` evaluation of concrete game traces; restore definitional
transparency (the kernel ignores reducibility attributes, so this changes
nothing about what is provable). -/
set_option allowUnsafeReducibility true
attribute [semireducible] Rat.add Rat.sub Rat.mul Rat.inv Rat.div Rat.blt
end

abbrev RGB := ℕ × ℕ × ℕ

/-- `Tile.flip_duration` is always `0.3` in the source (`Tile.__init__`). -/
def FLIP_DURATION : ℚ := 3 / 10

/-- The logical fields of `Tile` (`matching_game.py`, lines 22-31); the
pygame `rect` is presentation-only and omitted. -/
structure Tile where
  color : RGB
  flip_progress : ℚ
  is_flipping : Bool
  revealed : Bool
  flip_start_time : ℚ
  matched : Bool
deriving DecidableEq

/-- A freshly constructed tile (`Tile.__init__`). -/
def freshTile (c : RGB) : Tile :=
  { color := c, flip_progress := 0, is_flipping := false, revealed := false,
    flip_start_time := 0, matched := false }

/-- `Tile.update_flip` (lines 33-41): advance the flip animation; the Bool
result is the "animation just completed" flag returned to callers. -/
def Tile.update_flip (t : Tile) (now : ℚ) : Tile × Bool :=
  if t.is_flipping = true then
    let progress := min ((now - t.flip_start_time) / FLIP_DURATION) 1
    let t1 : Tile := { t with flip_progress := progress }
    if 1 ≤ progress then
      ({ t1 with is_flipping := false, revealed := !t1.revealed }, true)
    else
      (t1, false)
  else
    (t, false)

/-- `Tile.start_flip` (lines 43-45). -/
def Tile.start_flip (t : Tile) (now : ℚ) : Tile :=
  { t with is_flipping := true, flip_start_time := now }

/-- Level-1 palette, `ScienceGame.COLORS[1]` (8 colors). -/
def COLORS1 : List RGB :=
  [(255, 67, 89), (39, 174, 96), (241, 196, 15), (41, 128, 185),
   (243, 156, 18), (142, 68, 173), (0, 184, 148), (238, 82, 177)]

/-- Level-2 palette, `ScienceGame.COLORS[2]` (12 colors). -/
def COLORS2 : List RGB :=
  [(255, 67, 89), (39, 174, 96), (241, 196, 15), (41, 128, 185),
   (243, 156, 18), (142, 68, 173), (0, 184, 148), (238, 82, 177),
   (46, 64, 89), (108, 52, 131), (6, 82, 221), (131, 52, 113)]

/-- `ScienceGame.SCIENCE_MESSAGES`. -/
def SCIENCE_MESSAGES : List String :=
  ["Excellent observation!", "Data match found!", "Scientific success!",
   "Discovery made!"]

/-- `COLORS[level]`; the game only ever runs with `level` 1 or 2. -/
def colorsFor (level : ℕ) : List RGB :=
  if level = 1 then COLORS1 else COLORS2

/-- `self.grid_size = 4 if self.state.level == 1 else 5` (line 157). -/
def gridSizeFor (level : ℕ) : ℕ :=
  if level = 1 then 4 else 5

/-- Duplicate every list entry in place: the
`for i in range(n): color_pairs.extend([colors[i], colors[i]])` loops of
`setup_level` (lines 178-186). -/
def dupEach : List RGB → List RGB
  | [] => []
  | c :: rest => c :: c :: dupEach rest

/-- The `color_pairs` list built by `setup_level` before shuffling:
level 1 uses `needed_pairs = (4*4)//2 = 8` colors, level 2 uses 12. -/
def colorPairsFor (level : ℕ) : List RGB :=
  if level = 1 then dupEach (COLORS1.take ((4 * 4) / 2))
  else dupEach (COLORS2.take 12)

/-- Row-major coordinates filled by the `for row ... for col ...` loops of
`setup_level` (lines 194-207); level 2 skips the center cell `(2, 2)`. -/
def coordsFor (level : ℕ) : List (ℕ × ℕ) :=
  (List.range (gridSizeFor level)).flatMap fun r =>
    (List.range (gridSizeFor level)).filterMap fun c =>
      if level = 2 ∧ r = 2 ∧ c = 2 then none else some (r, c)

/-- Assign the shuffled colors to coordinates in row-major order
(`self.tiles[(row, col)] = Tile(color_pairs[color_index], rect)`). -/
def mkTilesLevel (level : ℕ) (shuffled : List RGB) : List ((ℕ × ℕ) × Tile) :=
  (List.zip (coordsFor level) shuffled).map fun pc => (pc.1, freshTile pc.2)

/-- All game state: the `GameState` dataclass (lines 8-20, minus the
`best_time` float-infinity bookkeeping no logic reads) together with the
`ScienceGame` instance fields the engine reads and writes. -/
structure GameState where
  level : ℕ
  score : ℕ
  high_score : ℕ
  matches_found : ℕ
  selected_tile : Option (ℕ × ℕ)
  game_time : ℚ
  message : String
  matched_pairs : List (ℕ × ℕ)
  game_complete : Bool
  game_active : Bool
  tiles : List ((ℕ × ℕ) × Tile)
  waiting_for_reset : Bool
  reset_start_time : ℚ
  transition_active : Bool
  transition_start_time : ℚ
  grid_size : ℕ
  tile_size : ℤ
  margin_x : ℤ
  margin_y : ℤ
  screen_w : ℤ
  screen_h : ℤ
  countdown_start : ℚ
  game_started : Bool
deriving DecidableEq

/-- First-hit lookup in the tile association list (the Python dict access). -/
def lookupTile : List ((ℕ × ℕ) × Tile) → (ℕ × ℕ) → Option Tile
  | [], _ => none
  | (k, t) :: rest, k' => if k = k' then some t else lookupTile rest k'

/-- Replace the value stored at a key (in-place mutation of a dict entry). -/
def updateTileAt : List ((ℕ × ℕ) × Tile) → (ℕ × ℕ) → Tile → List ((ℕ × ℕ) × Tile)
  | [], _, _ => []
  | (k, t) :: rest, k', t' =>
      if k = k' then (k, t') :: rest else (k, t) :: updateTileAt rest k' t'

/-- `self.state.matched_pairs.update([...])` on a Python set: add a
coordinate unless it is already present. -/
def insertPair (l : List (ℕ × ℕ)) (k : ℕ × ℕ) : List (ℕ × ℕ) :=
  if k ∈ l then l else l ++ [k]

/-- `ScienceGame.setup_level` (lines 156-207): compute the grid geometry
from the screen size and build the tile dictionary from the shuffled
color-pair list (the `random.shuffle` outcome is the `shuffled` argument). -/
def setup_level (s : GameState) (shuffled : List RGB) : GameState :=
  let g := gridSizeFor s.level
  let usable_height := s.screen_h - 200
  let max_tile_width := s.screen_w.fdiv ((g : ℤ) + 1)
  let max_tile_height := usable_height.fdiv ((g : ℤ) + 1)
  let ts := min max_tile_width max_tile_height
  { s with
    grid_size := g
    tile_size := ts
    margin_x := (s.screen_w - (g : ℤ) * ts).fdiv 2
    margin_y := (s.screen_h - (g : ℤ) * ts).fdiv 2 + 80
    tiles := mkTilesLevel s.level shuffled }

/-- `ScienceGame.start_next_level` (lines 208-216). -/
def start_next_level (s : GameState) (shuffled : List RGB) : GameState :=
  let s1 := { s with
    level := s.level + 1
    matches_found := 0
    matched_pairs := []
    selected_tile := none }
  let s2 := { s1 with message := "Starting Level " ++ toString s1.level ++ "!" }
  let s3 := setup_level s2 shuffled
  { s3 with transition_active := false, transition_start_time := 0 }

/-- The row computed by `handle_click`: `(y - margin_y) // tile_size`
(Python floor division, hence `Int.fdiv`). -/
def clickRow (s : GameState) (pos : ℤ × ℤ) : ℤ :=
  (pos.2 - s.margin_y).fdiv s.tile_size

/-- The column computed by `handle_click`: `(x - margin_x) // tile_size`. -/
def clickCol (s : GameState) (pos : ℤ × ℤ) : ℤ :=
  (pos.1 - s.margin_x).fdiv s.tile_size

/-- The coordinate a click maps to, after the bounds check has passed. -/
def clickRC (s : GameState) (pos : ℤ × ℤ) : ℕ × ℕ :=
  ((clickRow s pos).toNat, (clickCol s pos).toNat)

/-- The bounds-and-hole rejection test of `handle_click` (lines 228-229):
`not (0 <= row < grid and 0 <= col < grid) or (level == 2 and row == col == 2)`. -/
def clickOut (s : GameState) (pos : ℤ × ℤ) : Prop :=
  ¬(0 ≤ clickRow s pos ∧ clickRow s pos < (s.grid_size : ℤ) ∧
      0 ≤ clickCol s pos ∧ clickCol s pos < (s.grid_size : ℤ)) ∨
    (s.level = 2 ∧ clickRow s pos = 2 ∧ clickCol s pos = 2)

instance (s : GameState) (pos : ℤ × ℤ) : Decidable (clickOut s pos) := by
  unfold clickOut; infer_instance

/-- The outcome of an accepted first click (line 243): flip the tile and
remember its coordinate. -/
def click_first (s : GameState) (rc : ℕ × ℕ) (now : ℚ) (tile : Tile) : GameState :=
  { s with
    tiles := updateTileAt s.tiles rc (tile.start_flip now)
    selected_tile := some rc }

/-- The outcome of a matching second click (lines 248-253): the Python code
mutates the clicked tile object (`start_flip`, then `matched = True`) and
sets `matched = True` on the object at the previously selected key, adds
both coordinates to the `matched_pairs` set, bumps the counters and picks a
random science message. -/
def click_match (s : GameState) (rc prc : ℕ × ℕ) (now : ℚ) (msgIdx : ℕ)
    (tile prev : Tile) : GameState :=
  { s with
    tiles := updateTileAt (updateTileAt s.tiles rc
        { tile.start_flip now with matched := true }) prc
        { prev with matched := true }
    matched_pairs := insertPair (insertPair s.matched_pairs prc) rc
    matches_found := s.matches_found + 1
    score := s.score + 10 * s.level
    message := SCIENCE_MESSAGES.getD (msgIdx % 4) ""
    selected_tile := none }

/-- The outcome of a mismatching second click (lines 254-256): the clicked
tile is already flipping; raise the reset gate, record its start time, drop
the selection. -/
def click_mismatch (s : GameState) (rc : ℕ × ℕ) (now : ℚ) (tile : Tile) : GameState :=
  { s with
    tiles := updateTileAt s.tiles rc (tile.start_flip now)
    waiting_for_reset := true
    reset_start_time := now
    selected_tile := none }

/-- Processing the second click of a pair (lines 244-258): look the
previously selected key up in the tile dictionary (after the clicked
tile's `start_flip` mutation) — a missing key would raise `KeyError`
(`none`) — and compare colors. -/
def click_second (s : GameState) (rc prc : ℕ × ℕ) (now : ℚ) (msgIdx : ℕ)
    (tile : Tile) : Option GameState :=
  match lookupTile (updateTileAt s.tiles rc (tile.start_flip now)) prc with
  | none => none
  | some prev =>
    if tile.color = prev.color then some (click_match s rc prc now msgIdx tile prev)
    else some (click_mismatch s rc now tile)

/-- `ScienceGame.handle_click` (lines 219-258).  `msgIdx` stands for the
`random.choice(SCIENCE_MESSAGES)` pick.  `none` models an exception:
`ZeroDivisionError` when `tile_size = 0`, `KeyError` when the stored
`selected_tile` key is missing from the dictionary. -/
def handle_click (s : GameState) (pos : ℤ × ℤ) (now : ℚ) (msgIdx : ℕ) :
    Option GameState :=
  if s.waiting_for_reset = true ∨ s.transition_active = true then some s
  else if s.tile_size = 0 then none
  else if clickOut s pos then some s
  else
    match lookupTile s.tiles (clickRC s pos) with
    | none => some s
    | some tile =>
      if tile.revealed = true ∨ tile.is_flipping = true ∨ tile.matched = true then
        some s
      else
        match s.selected_tile with
        | none => some (click_first s (clickRC s pos) now tile)
        | some prc => click_second s (clickRC s pos) prc now msgIdx tile

/-- The body of the reset pass in `update_tiles`: flip back every tile that
is `revealed and not matched`. -/
def passTile (now : ℚ) (t : Tile) : Tile :=
  if t.revealed = true ∧ t.matched = false then t.start_flip now else t

/-- One entry of the `for tile in self.tiles.values(): tile.update_flip(...)`
loop. -/
def advTile (now : ℚ) (kt : (ℕ × ℕ) × Tile) : (ℕ × ℕ) × Tile :=
  (kt.1, (kt.2.update_flip now).1)

/-- `ScienceGame.update_tiles` (lines 260-268): the mismatch reset pass
(guarded by `waiting_for_reset` and the strict 1-second timeout) followed by
advancing every tile's flip animation. -/
def update_tiles (s : GameState) (now : ℚ) : GameState :=
  if s.waiting_for_reset = true ∧ 1 < now - s.reset_start_time then
    { s with
      waiting_for_reset := false
      tiles := ((s.tiles.map fun kt => (kt.1, passTile now kt.2)).map (advTile now)) }
  else
    { s with tiles := s.tiles.map (advTile now) }

/-- Iterated ticks (`update_tiles` once per frame). -/
def foldTicks (s : GameState) (ts : List ℚ) : GameState :=
  ts.foldl update_tiles s

/-- Lines 503-508 of `ScienceGame.run`: switch `game_active` on after the
countdown and refresh `game_time` while no transition overlay is active. -/
def frame_pre (s : GameState) (now : ℚ) : GameState :=
  let s1 := if s.game_active = false then
      { s with game_active := true, game_time := 0 } else s
  if s1.game_active = true ∧ s1.transition_active = false then
    { s1 with game_time := now - (s1.countdown_start + 3) } else s1

/-- Lines 533-537 of `ScienceGame.run`: once 2 seconds have elapsed from
`transition_start_time`, advance to the next level (level 1) or mark the
game complete (any other level — the game only reaches 2). -/
def frame_dwell (s : GameState) (now : ℚ) (shuffled : List RGB) : GameState :=
  if 2 ≤ now - s.transition_start_time then
    (if s.level = 1 then start_next_level s shuffled
     else { s with game_complete := true })
  else s

/-- Lines 513-537 of `ScienceGame.run`: `required_matches = grid² // 2`;
when reached, activate the transition overlay (recording its start time,
only if not already active), then run the dwell logic. -/
def frame_transition (s : GameState) (now : ℚ) (shuffled : List RGB) : GameState :=
  if s.matches_found = s.grid_size * s.grid_size / 2 then
    frame_dwell (if s.transition_active = false then
        { s with transition_active := true, transition_start_time := now } else s)
      now shuffled
  else s

/-- The in-game portion of one iteration of `ScienceGame.run`
(lines 503-537): activation bookkeeping, `update_tiles`, then the
level-completion/transition logic.  `shuffled` is the `random.shuffle`
outcome consumed if `start_next_level` fires this frame. -/
def run_frame (s : GameState) (now : ℚ) (shuffled : List RGB) : GameState :=
  frame_transition (update_tiles (frame_pre s now) now) now shuffled

/-- The state right after `ScienceGame.__init__` (with a `w × h` screen and
the given shuffle outcome) followed by pressing the start button at time 0:
`game_started = True`, `countdown_start = 0`, the level-1 board built. -/
def initState (w h : ℤ) (shuffled : List RGB) : GameState :=
  setup_level
    { level := 1, score := 0, high_score := 0, matches_found := 0,
      selected_tile := none, game_time := 0,
      message := "Matching Adventure Quest!", matched_pairs := [],
      game_complete := false, game_active := false,
      tiles := [], waiting_for_reset := false, reset_start_time := 0,
      transition_active := false, transition_start_time := 0,
      grid_size := 0, tile_size := 0, margin_x := 0, margin_y := 0,
      screen_w := w, screen_h := h, countdown_start := 0,
      game_started := true } shuffled

/-- States reachable by the event loop: start from `__init__` + start
button, then interleave `handle_click` events (dispatched only while
`game_active and not transition_active`, mirroring line 482) and in-game
frames.  Shuffle outcomes are constrained to be permutations of the
`color_pairs` list the code actually shuffles. -/
inductive Reach : GameState → Prop where
  | start (w h : ℤ) (shuffled : List RGB)
      (hp : shuffled.Perm (colorPairsFor 1)) : Reach (initState w h shuffled)
  | click {s s' : GameState} (pos : ℤ × ℤ) (now : ℚ) (m : ℕ)
      (hr : Reach s) (ha : s.game_active = true) (ht : s.transition_active = false)
      (h : handle_click s pos now m = some s') : Reach s'
  | tick {s : GameState} (now : ℚ) (shuffled : List RGB)
      (hp : shuffled.Perm (colorPairsFor (s.level + 1)))
      (hr : Reach s) : Reach (run_frame s now shuffled)

/-! ### The reachability invariant -/

/-- A matched tile is face-up, or face-down exactly while its reveal flip is
still pending; never both revealed and flipping. -/
def tileOK (t : Tile) : Prop := t.matched = true → t.revealed ≠ t.is_flipping

def tilesOK (s : GameState) : Prop := ∀ kt ∈ s.tiles, tileOK kt.2

/-- The remembered selected tile exists, is not yet matched, and is either
face-up and idle or face-down and mid-reveal. -/
def selOK (s : GameState) : Prop :=
  ∀ p, s.selected_tile = some p → ∃ t, lookupTile s.tiles p = some t ∧
    t.matched = false ∧ t.revealed ≠ t.is_flipping

/-- The mismatch gate and a pending selection never coexist. -/
def waitOK (s : GameState) : Prop :=
  s.waiting_for_reset = true → s.selected_tile = none

def GameInv (s : GameState) : Prop := tilesOK s ∧ selOK s ∧ waitOK s

/-! ### Concrete executions (800×600 screen, identity shuffle) -/

/-- The game right after `__init__` on an 800×600 screen with the identity
shuffle outcome (`tile_size = 80`, margins (240, 220); row-major board:
`(0,0) (0,1) ↦ c0`, `(0,2) (0,3) ↦ c1`, `(1,0) (1,1) ↦ c2`, …). -/
def exInit : GameState := initState 800 600 (colorPairsFor 1)

/-- One frame at time 3: the countdown (started at 0) is over, the game
becomes active. -/
def exActive : GameState := run_frame exInit 3 (colorPairsFor 2)

/-- Click (240, 220) ↦ tile (0, 0) at time 4: first selection. -/
def exSel : GameState := (handle_click exActive (240, 220) 4 0).getD exActive

/-- Click (320, 220) ↦ tile (0, 1) at time 5: same color, a match — both
tiles are `matched`, and (0, 1) is still mid-flip, face-down. -/
def exMatched : GameState := (handle_click exSel (320, 220) 5 0).getD exSel

/-- A frame at 22/5 completes tile (0, 0)'s reveal flip. -/
def exStuck3 : GameState := run_frame exSel (22/5) (colorPairsFor 2)

/-- Click (400, 220) ↦ tile (0, 2) at 9/2: different color, mismatch; the
gate goes up with `reset_start_time = 9/2`. -/
def exStuck4 : GameState := (handle_click exStuck3 (400, 220) (9/2) 0).getD exStuck3

/-- No frame until time 6 (> 9/2 + 1): the reset pass flips (0, 0) back but
skips (0, 2) — still face-down, its flip incomplete — and lowers the gate;
in the same call (0, 2)'s reveal flip then completes. -/
def exStuck5 : GameState := run_frame exStuck4 6 (colorPairsFor 2)

/-- A frame at 13/2 completes (0, 0)'s flip-back.  Now (0, 2) is stranded:
revealed, unmatched, idle, with the gate down. -/
def exStuck : GameState := run_frame exStuck5 (13/2) (colorPairsFor 2)

/-- Rescue, step 1: click (240, 300) ↦ tile (1, 0) at 7. -/
def exResc7 : GameState := (handle_click exStuck (240, 300) 7 0).getD exStuck

/-- Rescue, step 2: frame at 37/5 completes (1, 0)'s reveal. -/
def exResc8 : GameState := run_frame exResc7 (37/5) (colorPairsFor 2)

/-- Rescue, step 3: click (400, 300) ↦ tile (1, 2) at 15/2 — a second
mismatch, re-arming the gate. -/
def exResc9 : GameState := (handle_click exResc8 (400, 300) (15/2) 0).getD exResc8

/-- Rescue, step 4: frame at 9 fires the reset pass, which `start_flip`s
every revealed unmatched tile — including the stranded (0, 2). -/
def exResc10 : GameState := run_frame exResc9 9 (colorPairsFor 2)

/-- Rescue, step 5: frame at 19/2 completes the flip-backs: (0, 2) is
face-down again. -/
def exRescued : GameState := run_frame exResc10 (19/2) (colorPairsFor 2)

/-- A completed level-1 board: `exActive` with all 8 matches found.  The
transition logic reads only the counters and the transition fields, so the
tile list is irrelevant here. -/
def exDone : GameState := { exActive with matches_found := 8 }

/-- Mid-transition on level 1: the overlay has been up since time 6. -/
def exDwell : GameState :=
  { exActive with
      matches_found := 8
      transition_active := true
      transition_start_time := 6 }

/-- Mid-transition on level 2 (5×5 board, all 12 matches found). -/
def exDone2 : GameState :=
  { exActive with
      level := 2
      grid_size := 5
      matches_found := 12
      transition_active := true
      transition_start_time := 6 }

/-- A state whose tile dictionary is empty, exercising the missing-key
branch of `handle_click`. -/
def exEmpty : GameState := { exActive with tiles := [] }

/-! ### Association-list lemmas -/

theorem lookupTile_map (f : Tile → Tile) (l : List ((ℕ × ℕ) × Tile)) (k : ℕ × ℕ) :
    lookupTile (l.map fun kt => (kt.1, f kt.2)) k = (lookupTile l k).map f := by
  induction l with
  | nil => rfl
  | cons kt rest ih =>
    obtain ⟨k0, t0⟩ := kt
    by_cases h : k0 = k <;> simp [lookupTile, h, ih]

theorem lookupTile_updateTileAt_self (l : List ((ℕ × ℕ) × Tile)) (k : ℕ × ℕ)
    (t' : Tile) :
    lookupTile (updateTileAt l k t') k = (lookupTile l k).map fun _ => t' := by
  induction l with
  | nil => rfl
  | cons kt rest ih =>
    obtain ⟨k0, t0⟩ := kt
    by_cases h : k0 = k <;> simp [lookupTile, updateTileAt, h, ih]

theorem lookupTile_updateTileAt_ne (l : List ((ℕ × ℕ) × Tile)) {k k' : ℕ × ℕ}
    (t' : Tile) (h : k' ≠ k) :
    lookupTile (updateTileAt l k t') k' = lookupTile l k' := by
  have hkk : k ≠ k' := fun hh => h hh.symm
  induction l with
  | nil => rfl
  | cons kt rest ih =>
    obtain ⟨k0, t0⟩ := kt
    by_cases h0 : k0 = k
    · subst h0
      simp [lookupTile, updateTileAt, hkk]
    · by_cases h1 : k0 = k'
      · subst h1
        simp [lookupTile, updateTileAt, h0]
      · simp [lookupTile, updateTileAt, h0, h1, ih]

theorem forall_mem_updateTileAt {P : Tile → Prop} {l : List ((ℕ × ℕ) × Tile)}
    {k : ℕ × ℕ} {t : Tile} (hl : ∀ kt ∈ l, P kt.2) (ht : P t) :
    ∀ kt ∈ updateTileAt l k t, P kt.2 := by
  induction l with
  | nil => intro kt hkt; cases hkt
  | cons kt0 rest ih =>
    obtain ⟨k0, t0⟩ := kt0
    by_cases h0 : k0 = k
    · rw [show updateTileAt ((k0, t0) :: rest) k t = (k0, t) :: rest from by
        simp [updateTileAt, h0]]
      intro kt hkt
      rcases List.mem_cons.mp hkt with rfl | hkt
      · exact ht
      · exact hl kt (List.mem_cons_of_mem _ hkt)
    · rw [show updateTileAt ((k0, t0) :: rest) k t = (k0, t0) :: updateTileAt rest k t
        from by simp [updateTileAt, h0]]
      intro kt hkt
      rcases List.mem_cons.mp hkt with rfl | hkt
      · exact hl _ (List.mem_cons_self _ _)
      · exact ih (fun kt h => hl kt (List.mem_cons_of_mem _ h)) kt hkt

theorem mem_insertPair_self (l : List (ℕ × ℕ)) (k : ℕ × ℕ) : k ∈ insertPair l k := by
  unfold insertPair
  split
  · assumption
  · simp

theorem mem_insertPair_of_mem (l : List (ℕ × ℕ)) (k k' : ℕ × ℕ) (h : k ∈ l) :
    k ∈ insertPair l k' := by
  unfold insertPair
  split
  · exact h
  · simp [h]

/-! ### Tile-level lemmas -/

theorem update_flip_of_not_flipping {t : Tile} (h : t.is_flipping = false) (now : ℚ) :
    t.update_flip now = (t, false) := by
  unfold Tile.update_flip
  rw [h]
  simp

theorem update_flip_complete {t : Tile} (h : t.is_flipping = true) {now : ℚ}
    (hp : 1 ≤ (now - t.flip_start_time) / FLIP_DURATION) :
    t.update_flip now =
      ({ t with flip_progress := 1, is_flipping := false, revealed := !t.revealed },
       true) := by
  unfold Tile.update_flip
  rw [h]
  simp only [if_true]
  rw [min_eq_right hp, if_pos le_rfl]

theorem update_flip_mid {t : Tile} (h : t.is_flipping = true) {now : ℚ}
    (hp : ¬1 ≤ (now - t.flip_start_time) / FLIP_DURATION) :
    t.update_flip now =
      ({ t with flip_progress := (now - t.flip_start_time) / FLIP_DURATION },
       false) := by
  unfold Tile.update_flip
  rw [h]
  simp only [if_true]
  rw [min_eq_left (le_of_not_le hp), if_neg hp]

theorem update_flip_matched (t : Tile) (now : ℚ) :
    ((t.update_flip now).1).matched = t.matched := by
  by_cases h : t.is_flipping = true
  · by_cases hp : 1 ≤ (now - t.flip_start_time) / FLIP_DURATION
    · rw [update_flip_complete h hp]
    · rw [update_flip_mid h hp]
  · rw [update_flip_of_not_flipping (by simpa using h)]

theorem update_flip_color (t : Tile) (now : ℚ) :
    ((t.update_flip now).1).color = t.color := by
  by_cases h : t.is_flipping = true
  · by_cases hp : 1 ≤ (now - t.flip_start_time) / FLIP_DURATION
    · rw [update_flip_complete h hp]
    · rw [update_flip_mid h hp]
  · rw [update_flip_of_not_flipping (by simpa using h)]

theorem update_flip_revealed_ne_flipping {t : Tile} (hok : t.revealed ≠ t.is_flipping)
    (now : ℚ) :
    ((t.update_flip now).1).revealed ≠ ((t.update_flip now).1).is_flipping := by
  by_cases h : t.is_flipping = true
  · have hrev : t.revealed = false := by
      rw [h] at hok; revert hok; cases t.revealed <;> simp
    by_cases hp : 1 ≤ (now - t.flip_start_time) / FLIP_DURATION
    · rw [update_flip_complete h hp]
      simp [hrev]
    · rw [update_flip_mid h hp]
      exact hok
  · rw [update_flip_of_not_flipping (by simpa using h)]
    exact hok

theorem update_flip_revealed_of_revealed {t : Tile} (hok : t.revealed ≠ t.is_flipping)
    (hrev : t.revealed = true) (now : ℚ) :
    ((t.update_flip now).1).revealed = true := by
  have hf : t.is_flipping = false := by
    rw [hrev] at hok; revert hok; cases t.is_flipping <;> simp
  rw [update_flip_of_not_flipping hf]
  exact hrev

theorem update_flip_idem (t : Tile) (now : ℚ) :
    ((t.update_flip now).1.update_flip now).1 = (t.update_flip now).1 := by
  by_cases h : t.is_flipping = true
  · by_cases hp : 1 ≤ (now - t.flip_start_time) / FLIP_DURATION
    · rw [update_flip_complete h hp]
      rw [update_flip_of_not_flipping rfl]
    · rw [update_flip_mid h hp]
      dsimp only
      rw [update_flip_mid (t := { t with
        flip_progress := (now - t.flip_start_time) / FLIP_DURATION }) h hp]
  · have h' : t.is_flipping = false := by simpa using h
    rw [update_flip_of_not_flipping h']
    show (t.update_flip now).1 = t
    rw [update_flip_of_not_flipping h']

theorem passTile_of_matched {t : Tile} (h : t.matched = true) (now : ℚ) :
    passTile now t = t := by
  unfold passTile
  rw [if_neg]
  simp [h]

theorem passTile_of_not_revealed {t : Tile} (h : t.revealed = false) (now : ℚ) :
    passTile now t = t := by
  unfold passTile
  rw [if_neg]
  simp [h]

theorem passTile_matched (t : Tile) (now : ℚ) :
    (passTile now t).matched = t.matched := by
  unfold passTile
  split <;> rfl

/-! ### `update_tiles` characterization -/

theorem update_tiles_fired (s : GameState) (now : ℚ)
    (h : s.waiting_for_reset = true ∧ 1 < now - s.reset_start_time) :
    update_tiles s now =
      { s with
        waiting_for_reset := false
        tiles := (s.tiles.map fun kt => (kt.1, passTile now kt.2)).map (advTile now) } := by
  unfold update_tiles
  rw [if_pos h]

theorem update_tiles_quiet (s : GameState) (now : ℚ)
    (h : ¬(s.waiting_for_reset = true ∧ 1 < now - s.reset_start_time)) :
    update_tiles s now = { s with tiles := s.tiles.map (advTile now) } := by
  unfold update_tiles
  rw [if_neg h]

theorem update_tiles_matches_found (s : GameState) (now : ℚ) :
    (update_tiles s now).matches_found = s.matches_found := by
  unfold update_tiles; split <;> rfl

theorem update_tiles_score (s : GameState) (now : ℚ) :
    (update_tiles s now).score = s.score := by
  unfold update_tiles; split <;> rfl

theorem update_tiles_matched_pairs (s : GameState) (now : ℚ) :
    (update_tiles s now).matched_pairs = s.matched_pairs := by
  unfold update_tiles; split <;> rfl

theorem update_tiles_selected_tile (s : GameState) (now : ℚ) :
    (update_tiles s now).selected_tile = s.selected_tile := by
  unfold update_tiles; split <;> rfl

theorem update_tiles_grid_size (s : GameState) (now : ℚ) :
    (update_tiles s now).grid_size = s.grid_size := by
  unfold update_tiles; split <;> rfl

theorem update_tiles_level (s : GameState) (now : ℚ) :
    (update_tiles s now).level = s.level := by
  unfold update_tiles; split <;> rfl

theorem update_tiles_transition_active (s : GameState) (now : ℚ) :
    (update_tiles s now).transition_active = s.transition_active := by
  unfold update_tiles; split <;> rfl

theorem update_tiles_transition_start (s : GameState) (now : ℚ) :
    (update_tiles s now).transition_start_time = s.transition_start_time := by
  unfold update_tiles; split <;> rfl

theorem update_tiles_game_complete (s : GameState) (now : ℚ) :
    (update_tiles s now).game_complete = s.game_complete := by
  unfold update_tiles; split <;> rfl

theorem update_tiles_reset_start (s : GameState) (now : ℚ) :
    (update_tiles s now).reset_start_time = s.reset_start_time := by
  unfold update_tiles; split <;> rfl

theorem update_tiles_tile_size (s : GameState) (now : ℚ) :
    (update_tiles s now).tile_size = s.tile_size := by
  unfold update_tiles; split <;> rfl

theorem update_tiles_waiting_of_false (s : GameState) (now : ℚ)
    (h : s.waiting_for_reset = false) :
    (update_tiles s now).waiting_for_reset = false := by
  rw [update_tiles_quiet s now (by simp [h])]
  exact h

/-- Ticks never set the gate: if it is up after `update_tiles` it was up
before. -/
theorem update_tiles_waiting_le (s : GameState) (now : ℚ)
    (h : (update_tiles s now).waiting_for_reset = true) :
    s.waiting_for_reset = true := by
  by_cases hc : s.waiting_for_reset = true ∧ 1 < now - s.reset_start_time
  · rw [update_tiles_fired s now hc] at h
    cases h
  · rw [update_tiles_quiet s now hc] at h
    exact h

theorem lookupTile_map_adv (now : ℚ) (l : List ((ℕ × ℕ) × Tile)) (k : ℕ × ℕ) :
    lookupTile (l.map (advTile now)) k =
      (lookupTile l k).map fun t => (t.update_flip now).1 := by
  unfold advTile
  exact lookupTile_map (fun t => (t.update_flip now).1) l k

/-- Looking a key up after a quiet tick (gate not firing). -/
theorem lookupTile_update_tiles_quiet (s : GameState) (now : ℚ) (k : ℕ × ℕ)
    (h : ¬(s.waiting_for_reset = true ∧ 1 < now - s.reset_start_time)) :
    lookupTile (update_tiles s now).tiles k =
      (lookupTile s.tiles k).map fun t => (t.update_flip now).1 := by
  rw [update_tiles_quiet s now h]
  exact lookupTile_map_adv now s.tiles k

/-- Looking a key up after a tick in which the reset pass fired. -/
theorem lookupTile_update_tiles_fired (s : GameState) (now : ℚ) (k : ℕ × ℕ)
    (h : s.waiting_for_reset = true ∧ 1 < now - s.reset_start_time) :
    lookupTile (update_tiles s now).tiles k =
      (lookupTile s.tiles k).map fun t => ((passTile now t).update_flip now).1 := by
  rw [update_tiles_fired s now h]
  have h1 := lookupTile_map_adv now (s.tiles.map fun kt => (kt.1, passTile now kt.2)) k
  have h2 := lookupTile_map (passTile now) s.tiles k
  dsimp only
  rw [h1, h2, Option.map_map]
  rfl

theorem tilesOK_mkTilesLevel (level : ℕ) (shuffled : List RGB) :
    ∀ kt ∈ mkTilesLevel level shuffled, tileOK kt.2 := by
  intro kt hkt
  unfold mkTilesLevel at hkt
  rcases List.mem_map.mp hkt with ⟨pc, _, rfl⟩
  intro hm
  cases hm

/-! ### Field-preservation lemmas for the frame steps -/

theorem frame_pre_tiles (s : GameState) (now : ℚ) :
    (frame_pre s now).tiles = s.tiles := by
  simp only [frame_pre]
  repeat' split
  all_goals rfl

theorem frame_pre_selected_tile (s : GameState) (now : ℚ) :
    (frame_pre s now).selected_tile = s.selected_tile := by
  simp only [frame_pre]
  repeat' split
  all_goals rfl

theorem frame_pre_waiting (s : GameState) (now : ℚ) :
    (frame_pre s now).waiting_for_reset = s.waiting_for_reset := by
  simp only [frame_pre]
  repeat' split
  all_goals rfl

theorem frame_pre_reset_start (s : GameState) (now : ℚ) :
    (frame_pre s now).reset_start_time = s.reset_start_time := by
  simp only [frame_pre]
  repeat' split
  all_goals rfl

theorem frame_pre_matches_found (s : GameState) (now : ℚ) :
    (frame_pre s now).matches_found = s.matches_found := by
  simp only [frame_pre]
  repeat' split
  all_goals rfl

theorem frame_pre_grid_size (s : GameState) (now : ℚ) :
    (frame_pre s now).grid_size = s.grid_size := by
  simp only [frame_pre]
  repeat' split
  all_goals rfl

theorem frame_pre_level (s : GameState) (now : ℚ) :
    (frame_pre s now).level = s.level := by
  simp only [frame_pre]
  repeat' split
  all_goals rfl

theorem frame_pre_score (s : GameState) (now : ℚ) :
    (frame_pre s now).score = s.score := by
  simp only [frame_pre]
  repeat' split
  all_goals rfl

theorem frame_pre_matched_pairs (s : GameState) (now : ℚ) :
    (frame_pre s now).matched_pairs = s.matched_pairs := by
  simp only [frame_pre]
  repeat' split
  all_goals rfl

theorem frame_pre_transition_active (s : GameState) (now : ℚ) :
    (frame_pre s now).transition_active = s.transition_active := by
  simp only [frame_pre]
  repeat' split
  all_goals rfl

theorem frame_pre_transition_start (s : GameState) (now : ℚ) :
    (frame_pre s now).transition_start_time = s.transition_start_time := by
  simp only [frame_pre]
  repeat' split
  all_goals rfl

theorem frame_pre_game_complete (s : GameState) (now : ℚ) :
    (frame_pre s now).game_complete = s.game_complete := by
  simp only [frame_pre]
  repeat' split
  all_goals rfl

/-! ### Invariant preservation -/

theorem gameInv_fields {s s' : GameState} (hInv : GameInv s)
    (ht : s'.tiles = s.tiles) (hsel : s'.selected_tile = s.selected_tile)
    (hw : s'.waiting_for_reset = s.waiting_for_reset) : GameInv s' := by
  obtain ⟨hT, hS, hW⟩ := hInv
  refine ⟨?_, ?_, ?_⟩
  · intro kt hkt
    rw [ht] at hkt
    exact hT kt hkt
  · intro p hp
    rw [hsel] at hp
    rw [ht]
    exact hS p hp
  · intro hww
    rw [hw] at hww
    rw [hsel]
    exact hW hww

theorem gameInv_start_next_level (s : GameState) (shuffled : List RGB) :
    GameInv (start_next_level s shuffled) := by
  refine ⟨?_, ?_, ?_⟩
  · intro kt hkt
    exact tilesOK_mkTilesLevel (s.level + 1) shuffled kt hkt
  · intro p hp
    rw [show (start_next_level s shuffled).selected_tile = none from rfl] at hp
    cases hp
  · intro _
    rfl

theorem gameInv_update_tiles {s : GameState} (hInv : GameInv s) (now : ℚ) :
    GameInv (update_tiles s now) := by
  obtain ⟨hT, hS, hW⟩ := hInv
  refine ⟨?_, ?_, ?_⟩
  · by_cases hc : s.waiting_for_reset = true ∧ 1 < now - s.reset_start_time
    · rw [update_tiles_fired s now hc]
      intro kt hkt
      rcases List.mem_map.mp hkt with ⟨kt1, hkt1, rfl⟩
      rcases List.mem_map.mp hkt1 with ⟨kt0, hkt0, rfl⟩
      show tileOK ((passTile now kt0.2).update_flip now).1
      intro hm
      have hm0 : kt0.2.matched = true := by
        rw [update_flip_matched, passTile_matched] at hm
        exact hm
      rw [passTile_of_matched hm0]
      exact update_flip_revealed_ne_flipping (hT kt0 hkt0 hm0) now
    · rw [update_tiles_quiet s now hc]
      intro kt hkt
      rcases List.mem_map.mp hkt with ⟨kt0, hkt0, rfl⟩
      show tileOK (kt0.2.update_flip now).1
      intro hm
      rw [update_flip_matched] at hm
      exact update_flip_revealed_ne_flipping (hT kt0 hkt0 hm) now
  · intro p hp
    rw [update_tiles_selected_tile] at hp
    have hw : s.waiting_for_reset = false := by
      by_cases hwb : s.waiting_for_reset = true
      · rw [hW hwb] at hp
        cases hp
      · simpa using hwb
    have hc : ¬(s.waiting_for_reset = true ∧ 1 < now - s.reset_start_time) := by
      simp [hw]
    obtain ⟨t, hl, htm, htok⟩ := hS p hp
    refine ⟨(t.update_flip now).1, ?_, ?_, ?_⟩
    · rw [lookupTile_update_tiles_quiet s now p hc, hl]
      rfl
    · rw [update_flip_matched]
      exact htm
    · exact update_flip_revealed_ne_flipping htok now
  · intro hw
    have hbefore := update_tiles_waiting_le s now hw
    rw [update_tiles_selected_tile]
    exact hW hbefore

theorem gameInv_frame_pre {s : GameState} (hInv : GameInv s) (now : ℚ) :
    GameInv (frame_pre s now) :=
  gameInv_fields hInv (frame_pre_tiles s now) (frame_pre_selected_tile s now)
    (frame_pre_waiting s now)

theorem gameInv_frame_dwell {s : GameState} (hInv : GameInv s) (now : ℚ)
    (shuffled : List RGB) : GameInv (frame_dwell s now shuffled) := by
  unfold frame_dwell
  split
  · split
    · exact gameInv_start_next_level _ shuffled
    · exact gameInv_fields hInv rfl rfl rfl
  · exact hInv

theorem gameInv_frame_transition {s : GameState} (hInv : GameInv s) (now : ℚ)
    (shuffled : List RGB) : GameInv (frame_transition s now shuffled) := by
  unfold frame_transition
  split
  · refine gameInv_frame_dwell ?_ now shuffled
    split
    · exact gameInv_fields hInv rfl rfl rfl
    · exact hInv
  · exact hInv

theorem gameInv_run_frame {s : GameState} (hInv : GameInv s) (now : ℚ)
    (shuffled : List RGB) : GameInv (run_frame s now shuffled) :=
  gameInv_frame_transition (gameInv_update_tiles (gameInv_frame_pre hInv now) now)
    now shuffled

theorem gameInv_initState (w h : ℤ) (shuffled : List RGB) :
    GameInv (initState w h shuffled) := by
  refine ⟨?_, ?_, ?_⟩
  · intro kt hkt
    exact tilesOK_mkTilesLevel 1 shuffled kt hkt
  · intro p hp
    rw [show (initState w h shuffled).selected_tile = none from rfl] at hp
    cases hp
  · intro _
    rfl

theorem not_guard_facts {tile : Tile}
    (hguard : ¬(tile.revealed = true ∨ tile.is_flipping = true ∨ tile.matched = true)) :
    tile.revealed = false ∧ tile.is_flipping = false ∧ tile.matched = false := by
  push_neg at hguard
  obtain ⟨h1, h2, h3⟩ := hguard
  exact ⟨by simpa using h1, by simpa using h2, by simpa using h3⟩

theorem click_second_eq (s : GameState) (rc prc : ℕ × ℕ) (now : ℚ) (m : ℕ)
    (tile prev : Tile)
    (hprev : lookupTile (updateTileAt s.tiles rc (tile.start_flip now)) prc
      = some prev) :
    click_second s rc prc now m tile =
      if tile.color = prev.color then some (click_match s rc prc now m tile prev)
      else some (click_mismatch s rc now tile) := by
  unfold click_second
  rw [hprev]

theorem gameInv_handle_click {s s' : GameState} {pos : ℤ × ℤ} {now : ℚ} {m : ℕ}
    (hInv : GameInv s) (h : handle_click s pos now m = some s') : GameInv s' := by
  obtain ⟨hT, hS, hW⟩ := hInv
  unfold handle_click at h
  split at h
  · injection h with h1
    subst h1
    exact ⟨hT, hS, hW⟩
  · rename_i hgate
    have hwf : s.waiting_for_reset = false := by
      by_cases hb : s.waiting_for_reset = true
      · exact absurd (Or.inl hb) hgate
      · simpa using hb
    split at h
    · exact Option.noConfusion h
    · split at h
      · injection h with h1
        subst h1
        exact ⟨hT, hS, hW⟩
      · split at h
        · injection h with h1
          subst h1
          exact ⟨hT, hS, hW⟩
        · rename_i tile htile
          split at h
          · injection h with h1
            subst h1
            exact ⟨hT, hS, hW⟩
          · rename_i hguard
            obtain ⟨hrev, hflip, hmat⟩ := not_guard_facts hguard
            split at h
            · -- no previous selection: remember this tile
              injection h with h1
              subst h1
              refine ⟨?_, ?_, ?_⟩
              · refine forall_mem_updateTileAt hT ?_
                intro hm
                rw [show (tile.start_flip now).matched = tile.matched from rfl,
                  hmat] at hm
                cases hm
              · intro p hp
                rw [show (click_first s (clickRC s pos) now tile).selected_tile =
                  some (clickRC s pos) from rfl] at hp
                injection hp with hp1
                subst hp1
                refine ⟨tile.start_flip now, ?_, hmat, ?_⟩
                · show lookupTile (updateTileAt s.tiles (clickRC s pos)
                    (tile.start_flip now)) (clickRC s pos) = _
                  rw [lookupTile_updateTileAt_self, htile]
                  rfl
                · show tile.revealed ≠ true
                  rw [hrev]
                  simp
              · intro hww
                exact absurd (show s.waiting_for_reset = true from hww)
                  (by simp [hwf])
            · -- second click of a pair
              rename_i prc hsel
              obtain ⟨tp, hlp, htpm, htpok⟩ := hS prc hsel
              have hne : prc ≠ clickRC s pos := by
                intro he
                rw [he, htile] at hlp
                injection hlp with hlp1
                subst hlp1
                rw [hrev, hflip] at htpok
                exact htpok rfl
              rw [click_second_eq s (clickRC s pos) prc now m tile tp (by
                rw [lookupTile_updateTileAt_ne s.tiles (tile.start_flip now) hne]
                exact hlp)] at h
              split at h
              · -- the colors match
                injection h with h1
                subst h1
                refine ⟨?_, ?_, ?_⟩
                · refine forall_mem_updateTileAt (forall_mem_updateTileAt hT ?_) ?_
                  · intro _
                    show tile.revealed ≠ true
                    rw [hrev]
                    simp
                  · intro _
                    exact htpok
                · intro p hp
                  exact Option.noConfusion hp
                · intro _
                  rfl
              · -- the colors differ: raise the gate
                injection h with h1
                subst h1
                refine ⟨?_, ?_, ?_⟩
                · refine forall_mem_updateTileAt hT ?_
                  intro hm
                  rw [show (tile.start_flip now).matched = tile.matched from rfl,
                    hmat] at hm
                  cases hm
                · intro p hp
                  exact Option.noConfusion hp
                · intro _
                  rfl

/-- Every reachable state satisfies the three structural invariants. -/
theorem reach_gameInv {s : GameState} (hr : Reach s) : GameInv s := by
  induction hr with
  | start w h shuffled hp => exact gameInv_initState w h shuffled
  | click pos now m hr ha ht h ih => exact gameInv_handle_click ih h
  | tick now shuffled hp hr ih => exact gameInv_run_frame ih now shuffled

/-! ### Claim C9: tick idempotence -/

theorem map_advTile_idem (now : ℚ) (l : List ((ℕ × ℕ) × Tile)) :
    (l.map (advTile now)).map (advTile now) = l.map (advTile now) := by
  rw [List.map_map]
  refine List.map_congr_left ?_
  intro kt _
  show advTile now (advTile now kt) = advTile now kt
  unfold advTile
  rw [update_flip_idem]

/-- C9: `tick` is idempotent in its time argument.  A second `update_tiles`
call with the same `now` is a no-op: the gate has already been lowered by
the first call (so the reset pass cannot run twice per activation), and
advancing a tile's flip twice at the same instant equals advancing it once
(in particular a completed flip toggles `revealed` exactly once). -/
theorem claim9_tick_idempotent (s : GameState) (now : ℚ) :
    update_tiles (update_tiles s now) now = update_tiles s now := by
  by_cases hc : s.waiting_for_reset = true ∧ 1 < now - s.reset_start_time
  · rw [update_tiles_fired s now hc, update_tiles_quiet _ now (by simp)]
    dsimp only
    rw [map_advTile_idem]
  · rw [update_tiles_quiet s now hc]
    rw [update_tiles_quiet _ now (by exact hc)]
    dsimp only
    rw [map_advTile_idem]

/-! ### Claim C4: the flip animation contract -/

/-- C4 counterexample: the claim says `advance(now)` sets
`progress = clamp((now - now0)/0.3, 0, 1)`, but `Tile.update_flip` only
clamps from above (`min(..., 1)`, line 35): starting a flip at time `1` and
advancing at time `0` stores progress `-10/3`, while the claimed clamp
formula yields `0`. -/
theorem claim4_progress_clamp_refuted :
    (((freshTile (0, 0, 0)).start_flip 1).update_flip 0).1.flip_progress = -10 / 3 ∧
    max 0 (min ((0 - 1) / FLIP_DURATION) 1) = 0 ∧ (-10 / 3 : ℚ) ≠ 0 := by
  refine ⟨by decide, ?_, by norm_num⟩
  rw [show ((0 - 1 : ℚ)) / FLIP_DURATION = -10 / 3 by
    rw [FLIP_DURATION]; norm_num]
  rw [min_eq_left (by norm_num), max_eq_left (by norm_num)]

/-- C4 amended: for `now ≥ now0` the stored progress equals the claimed
clamp (the code computes `min((now-now0)/0.3, 1)`, which coincides with
`clamp` exactly when `now ≥ now0`); when the flip completes
(`now ≥ now0 + 0.3`) the tile goes idle and `revealed` toggles exactly
once; before completion nothing toggles; and once a tile is idle, any
number of further `advance` calls leave it completely unchanged, so
`revealed` is never toggled again without a new `startFlip`. -/
theorem claim4_advance_toggle (t : Tile) (now0 now : ℚ) (h0 : now0 ≤ now) :
    ((t.start_flip now0).update_flip now).1.flip_progress =
      max 0 (min ((now - now0) / FLIP_DURATION) 1) ∧
    (now0 + FLIP_DURATION ≤ now →
      ((t.start_flip now0).update_flip now).1.is_flipping = false ∧
      ((t.start_flip now0).update_flip now).1.revealed = !t.revealed) ∧
    (now < now0 + FLIP_DURATION →
      ((t.start_flip now0).update_flip now).1.is_flipping = true ∧
      ((t.start_flip now0).update_flip now).1.revealed = t.revealed) ∧
    (∀ u : Tile, u.is_flipping = false → ∀ ts : List ℚ,
      ts.foldl (fun x τ => (x.update_flip τ).1) u = u) := by
  have hFD : (0 : ℚ) < FLIP_DURATION := by rw [FLIP_DURATION]; norm_num
  have hstart : (t.start_flip now0).flip_start_time = now0 := rfl
  have hflip : (t.start_flip now0).is_flipping = true := rfl
  have hdiv : (0 : ℚ) ≤ (now - now0) / FLIP_DURATION :=
    div_nonneg (by linarith) hFD.le
  have hiff : 1 ≤ (now - now0) / FLIP_DURATION ↔ now0 + FLIP_DURATION ≤ now := by
    rw [one_le_div hFD]
    constructor <;> intro hh <;> linarith
  refine ⟨?_, ?_, ?_, ?_⟩
  · by_cases hp : 1 ≤ (now - now0) / FLIP_DURATION
    · rw [update_flip_complete hflip (by rw [hstart]; exact hp)]
      show (1 : ℚ) = max 0 (min ((now - now0) / FLIP_DURATION) 1)
      rw [min_eq_right hp, max_eq_right (by norm_num : (0 : ℚ) ≤ 1)]
    · rw [update_flip_mid hflip (by rw [hstart]; exact hp)]
      show (now - now0) / FLIP_DURATION = _
      rw [min_eq_left (le_of_not_le hp), max_eq_right hdiv]
  · intro hc
    rw [update_flip_complete hflip (by rw [hstart]; exact hiff.mpr hc)]
    exact ⟨rfl, rfl⟩
  · intro hc
    rw [update_flip_mid hflip (by
      rw [hstart]
      intro hge
      exact absurd (hiff.mp hge) (by linarith))]
    exact ⟨rfl, rfl⟩
  · intro u hu ts
    induction ts with
    | nil => rfl
    | cons τ rest ih =>
      rw [List.foldl_cons]
      rw [show ((u.update_flip τ).1 : Tile) = u from by
        rw [update_flip_of_not_flipping hu]]
      exact ih

/-! ### Claim C6: the second click always clears the selection -/

/-- C6: in any state with a remembered first selection, any `handle_click`
call that changes the state at all (i.e. actually processes the second
click of the pair) leaves `selected_tile = None`, on match and on mismatch
alike; `selectedTile` is therefore non-null only between an accepted first
click and the processing of the second. -/
theorem claim6_second_click_clears (s : GameState) (pos : ℤ × ℤ) (now : ℚ) (m : ℕ)
    (p : ℕ × ℕ) (hsel : s.selected_tile = some p) (s' : GameState)
    (h : handle_click s pos now m = some s') (hne : s' ≠ s) :
    s'.selected_tile = none := by
  unfold handle_click at h
  split at h
  · injection h with h1
    exact absurd h1.symm hne
  · split at h
    · exact Option.noConfusion h
    · split at h
      · injection h with h1
        exact absurd h1.symm hne
      · split at h
        · injection h with h1
          exact absurd h1.symm hne
        · rename_i tile htile
          split at h
          · injection h with h1
            exact absurd h1.symm hne
          · split at h
            · rename_i hselnone
              rw [hsel] at hselnone
              cases hselnone
            · unfold click_second at h
              split at h
              · exact Option.noConfusion h
              · split at h
                · injection h with h1
                  subst h1
                  rfl
                · injection h with h1
                  subst h1
                  rfl

/-! ### Claim C8: every color appears an even number of times -/

theorem count_dupEach (c : RGB) (l : List RGB) :
    (dupEach l).count c = 2 * l.count c := by
  induction l with
  | nil => rfl
  | cons a rest ih =>
    show List.count c (a :: a :: dupEach rest) = 2 * List.count c (a :: rest)
    rw [List.count_cons, List.count_cons, List.count_cons, ih]
    ring

theorem count_eq_of_perm {l₁ l₂ : List RGB} (h : l₁.Perm l₂) (c : RGB) :
    l₁.count c = l₂.count c := by
  induction h with
  | nil => rfl
  | cons a h ih => rw [List.count_cons, List.count_cons, ih]
  | swap a b l =>
    rw [List.count_cons, List.count_cons, List.count_cons, List.count_cons]
    ring
  | trans h1 h2 ih1 ih2 => rw [ih1, ih2]

theorem count_eq_one_nodup (c : RGB) (l : List RGB) (hn : l.Nodup) (hc : c ∈ l) :
    l.count c = 1 := by
  induction l with
  | nil => cases hc
  | cons a rest ih =>
    rw [List.count_cons]
    rcases List.mem_cons.mp hc with rfl | hc2
    · rw [List.count_eq_zero.mpr (List.nodup_cons.mp hn).1]
      simp
    · have hne : a ≠ c := by
        rintro rfl
        exact (List.nodup_cons.mp hn).1 hc2
      rw [ih (List.nodup_cons.mp hn).2 hc2]
      simp [hne]

theorem mkTilesLevel_colors (level : ℕ) (shuffled : List RGB)
    (hlen : shuffled.length ≤ (coordsFor level).length) :
    (mkTilesLevel level shuffled).map (fun kt => kt.2.color) = shuffled := by
  unfold mkTilesLevel
  rw [List.map_map]
  have hcomp : ((fun kt => kt.2.color) ∘ fun pc : (ℕ × ℕ) × RGB =>
      (pc.1, freshTile pc.2)) = Prod.snd := rfl
  rw [hcomp]
  exact List.map_snd_zip _ _ hlen

/-- C8: for every shuffle outcome, `setup_level`'s color assignment gives
every color an even count — in fact on level 1 the board has 16 tiles and
each of the 8 level-1 palette colors appears exactly twice, and on level 2
(center cell omitted) 24 tiles with each of the 12 palette colors exactly
twice, so no odd filler color exists at all. -/
theorem claim8_board_pairing (level : ℕ) (shuffled : List RGB)
    (hl : level = 1 ∨ level = 2) (hp : shuffled.Perm (colorPairsFor level)) :
    (∀ c : RGB,
      Even (((mkTilesLevel level shuffled).map fun kt => kt.2.color).count c)) ∧
    (mkTilesLevel level shuffled).length = (if level = 1 then 16 else 24) ∧
    (∀ c ∈ colorsFor level,
      ((mkTilesLevel level shuffled).map fun kt => kt.2.color).count c = 2) := by
  have hlen : shuffled.length = (colorPairsFor level).length := hp.length_eq
  have hcoords : (coordsFor level).length = (colorPairsFor level).length := by
    rcases hl with rfl | rfl <;> decide
  have hcols : (mkTilesLevel level shuffled).map (fun kt => kt.2.color) = shuffled :=
    mkTilesLevel_colors level shuffled (by rw [hlen, hcoords])
  have hcount : ∀ c : RGB, shuffled.count c = (colorPairsFor level).count c :=
    fun c => count_eq_of_perm hp c
  refine ⟨?_, ?_, ?_⟩
  · intro c
    rw [hcols, hcount c]
    rcases hl with rfl | rfl
    · rw [show colorPairsFor 1 = dupEach (COLORS1.take ((4 * 4) / 2)) from rfl]
      rw [count_dupEach]
      exact even_two_mul _
    · rw [show colorPairsFor 2 = dupEach (COLORS2.take 12) from rfl]
      rw [count_dupEach]
      exact even_two_mul _
  · have hml : (mkTilesLevel level shuffled).length = shuffled.length := by
      have hcl := congrArg List.length hcols
      rwa [List.length_map] at hcl
    rw [hml, hlen, hcoords.symm]
    rcases hl with rfl | rfl <;> decide
  · intro c hc
    rw [hcols, hcount c]
    rcases hl with rfl | rfl
    · rw [show colorsFor 1 = COLORS1 from rfl] at hc
      rw [show colorPairsFor 1 = dupEach (COLORS1.take ((4 * 4) / 2)) from rfl,
        count_dupEach]
      rw [show (COLORS1.take ((4 * 4) / 2)) = COLORS1 from by decide]
      rw [count_eq_one_nodup c COLORS1 (by decide) hc]
    · rw [show colorsFor 2 = COLORS2 from rfl] at hc
      rw [show colorPairsFor 2 = dupEach (COLORS2.take 12) from rfl, count_dupEach]
      rw [show (COLORS2.take 12) = COLORS2 from by decide]
      rw [count_eq_one_nodup c COLORS2 (by decide) hc]

/-! ### Claim C3: level completion and transition -/

theorem frame_dwell_quiet (s : GameState) (now : ℚ) (shuffled : List RGB)
    (h : ¬2 ≤ now - s.transition_start_time) :
    frame_dwell s now shuffled = s := by
  unfold frame_dwell
  rw [if_neg h]

theorem frame_dwell_level1 (s : GameState) (now : ℚ) (shuffled : List RGB)
    (h : 2 ≤ now - s.transition_start_time) (hl : s.level = 1) :
    frame_dwell s now shuffled = start_next_level s shuffled := by
  unfold frame_dwell
  rw [if_pos h, if_pos hl]

theorem frame_dwell_final (s : GameState) (now : ℚ) (shuffled : List RGB)
    (h : 2 ≤ now - s.transition_start_time) (hl : ¬s.level = 1) :
    frame_dwell s now shuffled = { s with game_complete := true } := by
  unfold frame_dwell
  rw [if_pos h, if_neg hl]

theorem frame_transition_noreq (s : GameState) (now : ℚ) (shuffled : List RGB)
    (h : ¬s.matches_found = s.grid_size * s.grid_size / 2) :
    frame_transition s now shuffled = s := by
  unfold frame_transition
  rw [if_neg h]

theorem frame_transition_req (s : GameState) (now : ℚ) (shuffled : List RGB)
    (h : s.matches_found = s.grid_size * s.grid_size / 2) :
    frame_transition s now shuffled =
      frame_dwell (if s.transition_active = false then
        { s with transition_active := true, transition_start_time := now } else s)
      now shuffled := by
  unfold frame_transition
  rw [if_pos h]

/-- The fields of the state reaching the transition check are those of `s`
for everything the transition logic reads. -/
theorem run_frame_eq_transition (s : GameState) (now : ℚ) (shuffled : List RGB) :
    run_frame s now shuffled =
      frame_transition (update_tiles (frame_pre s now) now) now shuffled := rfl

theorem pre_tick_matches_found (s : GameState) (now : ℚ) :
    (update_tiles (frame_pre s now) now).matches_found = s.matches_found := by
  rw [update_tiles_matches_found, frame_pre_matches_found]

theorem pre_tick_grid_size (s : GameState) (now : ℚ) :
    (update_tiles (frame_pre s now) now).grid_size = s.grid_size := by
  rw [update_tiles_grid_size, frame_pre_grid_size]

theorem pre_tick_transition_active (s : GameState) (now : ℚ) :
    (update_tiles (frame_pre s now) now).transition_active = s.transition_active := by
  rw [update_tiles_transition_active, frame_pre_transition_active]

theorem pre_tick_transition_start (s : GameState) (now : ℚ) :
    (update_tiles (frame_pre s now) now).transition_start_time
      = s.transition_start_time := by
  rw [update_tiles_transition_start, frame_pre_transition_start]

theorem pre_tick_level (s : GameState) (now : ℚ) :
    (update_tiles (frame_pre s now) now).level = s.level := by
  rw [update_tiles_level, frame_pre_level]

theorem pre_tick_game_complete (s : GameState) (now : ℚ) :
    (update_tiles (frame_pre s now) now).game_complete = s.game_complete := by
  rw [update_tiles_game_complete, frame_pre_game_complete]

/-- C3: when `matchesFound` equals `requiredMatches = grid_size² // 2`
(8 on level 1, 12 on level 2), the next frame (i) activates the transition
overlay recording `now` as its start, with no level change yet (the dwell
test `now - now ≥ 2` cannot pass in the same frame); (ii) if the overlay is
already active and less than 2 seconds have elapsed, re-activating is a
no-op (the recorded start time is kept and nothing advances); (iii) on
level 1, once 2 seconds have elapsed the engine increments the level to 2,
resets `matchesFound` to 0, clears `matchedPairs` and `selectedTile`,
rebuilds the board for level 2 (5×5 minus the center hole) and leaves the
transition state; (iv) on level 2, once 2 seconds have elapsed it sets
`gameComplete = true`. -/
theorem claim3_level_transition (s : GameState) (now : ℚ) (shuffled : List RGB) :
    (s.transition_active = false → s.matches_found = s.grid_size * s.grid_size / 2 →
      (run_frame s now shuffled).transition_active = true ∧
      (run_frame s now shuffled).transition_start_time = now ∧
      (run_frame s now shuffled).level = s.level ∧
      (run_frame s now shuffled).matches_found = s.matches_found ∧
      (run_frame s now shuffled).game_complete = s.game_complete) ∧
    (s.transition_active = true → s.matches_found = s.grid_size * s.grid_size / 2 →
      now - s.transition_start_time < 2 →
      (run_frame s now shuffled).transition_active = true ∧
      (run_frame s now shuffled).transition_start_time = s.transition_start_time ∧
      (run_frame s now shuffled).level = s.level ∧
      (run_frame s now shuffled).game_complete = s.game_complete) ∧
    (s.transition_active = true → s.level = 1 → s.grid_size = 4 →
      s.matches_found = 8 → 2 ≤ now - s.transition_start_time →
      (run_frame s now shuffled).level = 2 ∧
      (run_frame s now shuffled).matches_found = 0 ∧
      (run_frame s now shuffled).matched_pairs = [] ∧
      (run_frame s now shuffled).selected_tile = none ∧
      (run_frame s now shuffled).transition_active = false ∧
      (run_frame s now shuffled).grid_size = 5 ∧
      (run_frame s now shuffled).tiles = mkTilesLevel 2 shuffled) ∧
    (s.transition_active = true → s.level = 2 → s.grid_size = 5 →
      s.matches_found = 12 → 2 ≤ now - s.transition_start_time →
      (run_frame s now shuffled).game_complete = true) := by
  set s3 := update_tiles (frame_pre s now) now with hs3
  have hm3 : s3.matches_found = s.matches_found := pre_tick_matches_found s now
  have hg3 : s3.grid_size = s.grid_size := pre_tick_grid_size s now
  have ht3 : s3.transition_active = s.transition_active :=
    pre_tick_transition_active s now
  have hts3 : s3.transition_start_time = s.transition_start_time :=
    pre_tick_transition_start s now
  have hl3 : s3.level = s.level := pre_tick_level s now
  have hc3 : s3.game_complete = s.game_complete := pre_tick_game_complete s now
  refine ⟨?_, ?_, ?_, ?_⟩
  · intro hta hreq
    rw [run_frame_eq_transition, ← hs3]
    rw [frame_transition_req s3 now shuffled (by rw [hm3, hg3]; exact hreq)]
    rw [if_pos (by rw [ht3]; exact hta)]
    rw [frame_dwell_quiet _ now shuffled (by
      show ¬(2 : ℚ) ≤ now - now
      rw [sub_self]
      norm_num)]
    exact ⟨rfl, rfl, hl3, hm3, hc3⟩
  · intro hta hreq hlt
    rw [run_frame_eq_transition, ← hs3]
    rw [frame_transition_req s3 now shuffled (by rw [hm3, hg3]; exact hreq)]
    rw [if_neg (by rw [ht3, hta]; simp)]
    rw [frame_dwell_quiet _ now shuffled (by rw [hts3]; exact not_le.mpr hlt)]
    exact ⟨ht3.trans hta, hts3, hl3, hc3⟩
  · intro hta hl1 hg4 hm8 hge
    rw [run_frame_eq_transition, ← hs3]
    rw [frame_transition_req s3 now shuffled (by rw [hm3, hg3, hm8, hg4])]
    rw [if_neg (by rw [ht3, hta]; simp)]
    rw [frame_dwell_level1 s3 now shuffled (by rw [hts3]; exact hge)
      (by rw [hl3]; exact hl1)]
    refine ⟨?_, rfl, rfl, rfl, rfl, ?_, ?_⟩
    · show s3.level + 1 = 2
      rw [hl3, hl1]
    · show gridSizeFor (s3.level + 1) = 5
      rw [hl3, hl1]
      decide
    · show mkTilesLevel (s3.level + 1) shuffled = mkTilesLevel 2 shuffled
      rw [hl3, hl1]
  · intro hta hl2 hg5 hm12 hge
    rw [run_frame_eq_transition, ← hs3]
    rw [frame_transition_req s3 now shuffled (by rw [hm3, hg3, hm12, hg5])]
    rw [if_neg (by rw [ht3, hta]; simp)]
    rw [frame_dwell_final s3 now shuffled (by rw [hts3]; exact hge)
      (by rw [hl3, hl2]; decide)]

/-! ### Claim C7: handle_click no-op cases and totality -/

/-- C7: `handle_click` is a complete no-op (returns the state unchanged,
hence no field of the game state or of any tile changes) whenever the
mismatch gate or the transition overlay is active, the position maps out of
the grid or onto the level-2 center hole, the mapped key has no tile, or
the target tile is revealed, mid-flip, or matched; and in every reachable
state whose board has a nonzero tile size (true for every real screen) it
returns a result rather than raising — the only raise points are
`tile_size = 0` (degenerate screens) and a dangling `selected_tile` key,
which reachable states never produce. -/
theorem claim7_noop_and_total :
    (∀ (s : GameState) (pos : ℤ × ℤ) (now : ℚ) (m : ℕ),
      s.waiting_for_reset = true ∨ s.transition_active = true →
      handle_click s pos now m = some s) ∧
    (∀ (s : GameState) (pos : ℤ × ℤ) (now : ℚ) (m : ℕ), s.tile_size ≠ 0 →
      clickOut s pos → handle_click s pos now m = some s) ∧
    (∀ (s : GameState) (pos : ℤ × ℤ) (now : ℚ) (m : ℕ), s.tile_size ≠ 0 →
      lookupTile s.tiles (clickRC s pos) = none →
      handle_click s pos now m = some s) ∧
    (∀ (s : GameState) (pos : ℤ × ℤ) (now : ℚ) (m : ℕ) (t : Tile),
      s.tile_size ≠ 0 → lookupTile s.tiles (clickRC s pos) = some t →
      t.revealed = true ∨ t.is_flipping = true ∨ t.matched = true →
      handle_click s pos now m = some s) ∧
    (∀ (s : GameState) (pos : ℤ × ℤ) (now : ℚ) (m : ℕ), Reach s →
      s.tile_size ≠ 0 → (handle_click s pos now m).isSome = true) := by
  refine ⟨?_, ?_, ?_, ?_, ?_⟩
  · intro s pos now m h
    unfold handle_click
    rw [if_pos h]
  · intro s pos now m hts hout
    unfold handle_click
    by_cases hg : s.waiting_for_reset = true ∨ s.transition_active = true
    · rw [if_pos hg]
    · rw [if_neg hg, if_neg hts, if_pos hout]
  · intro s pos now m hts hl
    unfold handle_click
    by_cases hg : s.waiting_for_reset = true ∨ s.transition_active = true
    · rw [if_pos hg]
    · rw [if_neg hg, if_neg hts]
      by_cases hout : clickOut s pos
      · rw [if_pos hout]
      · rw [if_neg hout, hl]
  · intro s pos now m t hts hl hguard
    unfold handle_click
    by_cases hg : s.waiting_for_reset = true ∨ s.transition_active = true
    · rw [if_pos hg]
    · rw [if_neg hg, if_neg hts]
      by_cases hout : clickOut s pos
      · rw [if_pos hout]
      · rw [if_neg hout, hl]
        show (if t.revealed = true ∨ t.is_flipping = true ∨ t.matched = true
          then some s else _) = some s
        rw [if_pos hguard]
  · intro s pos now m hr hts
    obtain ⟨hT, hS, hW⟩ := reach_gameInv hr
    unfold handle_click
    by_cases hg : s.waiting_for_reset = true ∨ s.transition_active = true
    · rw [if_pos hg]
      rfl
    · rw [if_neg hg, if_neg hts]
      by_cases hout : clickOut s pos
      · rw [if_pos hout]
        rfl
      · rw [if_neg hout]
        cases hlook : lookupTile s.tiles (clickRC s pos) with
        | none => rfl
        | some tile =>
          by_cases hgd : tile.revealed = true ∨ tile.is_flipping = true ∨
              tile.matched = true
          · show (if tile.revealed = true ∨ tile.is_flipping = true ∨
              tile.matched = true then some s else _ : Option GameState).isSome = true
            rw [if_pos hgd]
            rfl
          · show (if tile.revealed = true ∨ tile.is_flipping = true ∨
              tile.matched = true then some s else _ : Option GameState).isSome = true
            rw [if_neg hgd]
            cases hsel : s.selected_tile with
            | none => rfl
            | some prc =>
              obtain ⟨tp, hlp, _, _⟩ := hS prc hsel
              show (click_second s (clickRC s pos) prc now m tile).isSome = true
              by_cases heq : prc = clickRC s pos
              · subst heq
                rw [click_second_eq s (clickRC s pos) (clickRC s pos) now m tile
                  (tile.start_flip now) (by
                    rw [lookupTile_updateTileAt_self, hlook]
                    rfl)]
                split <;> rfl
              · rw [click_second_eq s (clickRC s pos) prc now m tile tp (by
                  rw [lookupTile_updateTileAt_ne s.tiles (tile.start_flip now) heq]
                  exact hlp)]
                split <;> rfl

/-! ### Claims C5 and C1: matched tiles -/

theorem foldTicks_append (s : GameState) (ts1 ts2 : List ℚ) :
    foldTicks s (ts1 ++ ts2) = foldTicks (foldTicks s ts1) ts2 :=
  List.foldl_append update_tiles s ts1 ts2

theorem handle_click_accepted (s : GameState) (pos : ℤ × ℤ) (now : ℚ) (m : ℕ)
    (tile : Tile)
    (hg : ¬(s.waiting_for_reset = true ∨ s.transition_active = true))
    (hts : ¬s.tile_size = 0) (hout : ¬clickOut s pos)
    (hl : lookupTile s.tiles (clickRC s pos) = some tile)
    (hgd : ¬(tile.revealed = true ∨ tile.is_flipping = true ∨ tile.matched = true)) :
    handle_click s pos now m =
      match s.selected_tile with
      | none => some (click_first s (clickRC s pos) now tile)
      | some prc => click_second s (clickRC s pos) prc now m tile := by
  unfold handle_click
  rw [if_neg hg, if_neg hts, if_neg hout, hl]
  show (if tile.revealed = true ∨ tile.is_flipping = true ∨ tile.matched = true
    then some s else _) = _
  rw [if_neg hgd]

/-- C5 amended: in every reachable state a matched tile is face-up or still
mid-flip toward face-up (the code sets `matched = True` on the second tile
of a pair while its reveal animation is still pending, so `matched ⇒
revealed` itself is violated — see the counterexample); and a click changes
the state only when the target tile is not revealed, not flipping and not
matched. -/
theorem claim5_matched_face_up_or_flipping (s : GameState) (hr : Reach s) :
    (∀ kt ∈ s.tiles, kt.2.matched = true →
      (kt.2.revealed = true ∨ kt.2.is_flipping = true)) ∧
    (∀ (pos : ℤ × ℤ) (now : ℚ) (m : ℕ) (s' : GameState),
      handle_click s pos now m = some s' → s' ≠ s →
      ∃ t, lookupTile s.tiles (clickRC s pos) = some t ∧
        t.revealed = false ∧ t.is_flipping = false ∧ t.matched = false) := by
  obtain ⟨hT, hS, hW⟩ := reach_gameInv hr
  constructor
  · intro kt hkt hm
    have hok := hT kt hkt hm
    cases hrv : kt.2.revealed with
    | true => exact Or.inl rfl
    | false =>
      cases hfl : kt.2.is_flipping with
      | true => exact Or.inr rfl
      | false =>
        rw [hrv, hfl] at hok
        exact absurd rfl hok
  · intro pos now m s' h hne
    unfold handle_click at h
    split at h
    · injection h with h1
      exact absurd h1.symm hne
    · split at h
      · exact Option.noConfusion h
      · split at h
        · injection h with h1
          exact absurd h1.symm hne
        · split at h
          · injection h with h1
            exact absurd h1.symm hne
          · rename_i tile htile
            split at h
            · injection h with h1
              exact absurd h1.symm hne
            · rename_i hguard
              obtain ⟨h1, h2, h3⟩ := not_guard_facts hguard
              exact ⟨tile, htile, h1, h2, h3⟩

theorem matched_tile_tick (s : GameState) (k : ℕ × ℕ) (t : Tile) (now : ℚ)
    (hl : lookupTile s.tiles k = some t) (hm : t.matched = true)
    (hok : t.revealed ≠ t.is_flipping) :
    ∃ t', lookupTile (update_tiles s now).tiles k = some t' ∧ t'.matched = true ∧
      t'.revealed ≠ t'.is_flipping ∧ (t.revealed = true → t'.revealed = true) := by
  by_cases hc : s.waiting_for_reset = true ∧ 1 < now - s.reset_start_time
  · rw [lookupTile_update_tiles_fired s now k hc, hl]
    refine ⟨_, rfl, ?_, ?_, ?_⟩
    · rw [update_flip_matched, passTile_matched]
      exact hm
    · show ((passTile now t).update_flip now).1.revealed ≠
        ((passTile now t).update_flip now).1.is_flipping
      rw [passTile_of_matched hm]
      exact update_flip_revealed_ne_flipping hok now
    · intro hrev
      show ((passTile now t).update_flip now).1.revealed = true
      rw [passTile_of_matched hm]
      exact update_flip_revealed_of_revealed hok hrev now
  · rw [lookupTile_update_tiles_quiet s now k hc, hl]
    refine ⟨_, rfl, ?_, ?_, ?_⟩
    · rw [update_flip_matched]
      exact hm
    · exact update_flip_revealed_ne_flipping hok now
    · intro hrev
      exact update_flip_revealed_of_revealed hok hrev now

/-- A matched tile stays matched under any sequence of ticks, and once
face-up it is never flipped back face-down. -/
theorem matched_tile_foldTicks (k : ℕ × ℕ) :
    ∀ (ts : List ℚ) (s : GameState) (t : Tile),
      lookupTile s.tiles k = some t → t.matched = true →
      t.revealed ≠ t.is_flipping →
      ∃ t', lookupTile (foldTicks s ts).tiles k = some t' ∧ t'.matched = true ∧
        t'.revealed ≠ t'.is_flipping ∧ (t.revealed = true → t'.revealed = true) := by
  intro ts
  induction ts with
  | nil => exact fun s t hl hm hok => ⟨t, hl, hm, hok, fun h => h⟩
  | cons τ rest ih =>
    intro s t hl hm hok
    obtain ⟨t1, hl1, hm1, hok1, hmono1⟩ := matched_tile_tick s k t τ hl hm hok
    obtain ⟨t2, hl2, hm2, hok2, hmono2⟩ := ih (update_tiles s τ) t1 hl1 hm1 hok1
    exact ⟨t2, hl2, hm2, hok2, fun h => hmono2 (hmono1 h)⟩

/-- C1: in any reachable state with a first tile already selected, a click
that maps onto a second, distinct, selectable tile of the same color
produces a state in which both tiles are `matched`, both coordinates are in
`matched_pairs`, `matches_found` grew by exactly 1, `score` grew by exactly
`10 * level`, the message is one of the science flavor messages, the
selection is cleared — and no sequence of later ticks ever flips either
tile back face-down (revealed, once true, stays true). -/
theorem claim1_match_click (s : GameState) (pos : ℤ × ℤ) (now : ℚ) (m : ℕ)
    (hr : Reach s)
    (hw : s.waiting_for_reset = false) (htr : s.transition_active = false)
    (hts : s.tile_size ≠ 0) (hout : ¬clickOut s pos)
    (prc : ℕ × ℕ) (hsel : s.selected_tile = some prc)
    (tq : Tile) (hq : lookupTile s.tiles (clickRC s pos) = some tq)
    (hqrev : tq.revealed = false) (hqflip : tq.is_flipping = false)
    (hqmat : tq.matched = false)
    (tp : Tile) (hp : lookupTile s.tiles prc = some tp)
    (hcolor : tq.color = tp.color) :
    ∃ s', handle_click s pos now m = some s' ∧
      (lookupTile s'.tiles (clickRC s pos)).map Tile.matched = some true ∧
      (lookupTile s'.tiles prc).map Tile.matched = some true ∧
      clickRC s pos ∈ s'.matched_pairs ∧ prc ∈ s'.matched_pairs ∧
      s'.matches_found = s.matches_found + 1 ∧
      s'.score = s.score + 10 * s.level ∧
      s'.message ∈ SCIENCE_MESSAGES ∧
      s'.selected_tile = none ∧
      (∀ ts1 ts2 : List ℚ,
        ((lookupTile (foldTicks s' ts1).tiles (clickRC s pos)).map Tile.revealed
            = some true →
          (lookupTile (foldTicks s' (ts1 ++ ts2)).tiles (clickRC s pos)).map
            Tile.revealed = some true) ∧
        ((lookupTile (foldTicks s' ts1).tiles prc).map Tile.revealed = some true →
          (lookupTile (foldTicks s' (ts1 ++ ts2)).tiles prc).map Tile.revealed
            = some true)) := by
  obtain ⟨hT, hS, hW⟩ := reach_gameInv hr
  obtain ⟨tp, hp0, htpm, htpok⟩ := hS prc hsel
  rw [hp] at hp0
  injection hp0 with hp1
  subst hp1
  have hne : prc ≠ clickRC s pos := by
    intro he
    rw [he, hq] at hp
    injection hp with hp2
    subst hp2
    rw [hqrev, hqflip] at htpok
    exact htpok rfl
  have hgg : ¬(s.waiting_for_reset = true ∨ s.transition_active = true) := by
    simp [hw, htr]
  have hgd : ¬(tq.revealed = true ∨ tq.is_flipping = true ∨ tq.matched = true) := by
    simp [hqrev, hqflip, hqmat]
  have hcalc : handle_click s pos now m =
      some (click_match s (clickRC s pos) prc now m tq tp) := by
    rw [handle_click_accepted s pos now m tq hgg
      (by simpa using hts) hout hq hgd, hsel]
    show click_second s (clickRC s pos) prc now m tq = _
    rw [click_second_eq s (clickRC s pos) prc now m tq tp (by
      rw [lookupTile_updateTileAt_ne s.tiles (tq.start_flip now) hne]
      exact hp)]
    rw [if_pos hcolor]
  refine ⟨click_match s (clickRC s pos) prc now m tq tp, hcalc, ?_, ?_, ?_, ?_,
    rfl, rfl, ?_, rfl, ?_⟩
  · show (lookupTile (updateTileAt (updateTileAt s.tiles (clickRC s pos)
      { tq.start_flip now with matched := true }) prc
      { tp with matched := true }) (clickRC s pos)).map Tile.matched = some true
    rw [lookupTile_updateTileAt_ne _ _ (Ne.symm hne), lookupTile_updateTileAt_self,
      hq]
    rfl
  · show (lookupTile (updateTileAt (updateTileAt s.tiles (clickRC s pos)
      { tq.start_flip now with matched := true }) prc
      { tp with matched := true }) prc).map Tile.matched = some true
    rw [lookupTile_updateTileAt_self, lookupTile_updateTileAt_ne _ _ hne, hp]
    rfl
  · exact mem_insertPair_self _ _
  · exact mem_insertPair_of_mem _ _ _ (mem_insertPair_self _ _)
  · show SCIENCE_MESSAGES.getD (m % 4) "" ∈ SCIENCE_MESSAGES
    have h4 : m % 4 = 0 ∨ m % 4 = 1 ∨ m % 4 = 2 ∨ m % 4 = 3 := by omega
    rcases h4 with h4 | h4 | h4 | h4 <;> rw [h4] <;> decide
  · intro ts1 ts2
    have hlq : lookupTile (click_match s (clickRC s pos) prc now m tq tp).tiles
        (clickRC s pos) = some { tq.start_flip now with matched := true } := by
      show lookupTile (updateTileAt (updateTileAt s.tiles (clickRC s pos)
        { tq.start_flip now with matched := true }) prc
        { tp with matched := true }) (clickRC s pos) = _
      rw [lookupTile_updateTileAt_ne _ _ (Ne.symm hne),
        lookupTile_updateTileAt_self, hq]
      rfl
    have hlp2 : lookupTile (click_match s (clickRC s pos) prc now m tq tp).tiles
        prc = some { tp with matched := true } := by
      show lookupTile (updateTileAt (updateTileAt s.tiles (clickRC s pos)
        { tq.start_flip now with matched := true }) prc
        { tp with matched := true }) prc = _
      rw [lookupTile_updateTileAt_self, lookupTile_updateTileAt_ne _ _ hne, hp]
      rfl
    have hokq : ({ tq.start_flip now with matched := true } : Tile).revealed ≠
        ({ tq.start_flip now with matched := true } : Tile).is_flipping := by
      show tq.revealed ≠ true
      rw [hqrev]
      simp
    have hokp : ({ tp with matched := true } : Tile).revealed ≠
        ({ tp with matched := true } : Tile).is_flipping := htpok
    constructor
    · intro hrev1
      obtain ⟨tA, hlA, hmA, hokA, _⟩ := matched_tile_foldTicks (clickRC s pos) ts1
        _ _ hlq rfl hokq
      rw [hlA] at hrev1
      injection hrev1 with hrev2
      obtain ⟨tB, hlB, _, _, hmonoB⟩ := matched_tile_foldTicks (clickRC s pos) ts2
        _ _ hlA hmA hokA
      rw [foldTicks_append, hlB]
      show some tB.revealed = some true
      rw [hmonoB hrev2]
    · intro hrev1
      obtain ⟨tA, hlA, hmA, hokA, _⟩ := matched_tile_foldTicks prc ts1
        _ _ hlp2 rfl hokp
      rw [hlA] at hrev1
      injection hrev1 with hrev2
      obtain ⟨tB, hlB, _, _, hmonoB⟩ := matched_tile_foldTicks prc ts2
        _ _ hlA hmA hokA
      rw [foldTicks_append, hlB]
      show some tB.revealed = some true
      rw [hmonoB hrev2]

/-! ### Claim C2: mismatch and the one-second reset gate -/

theorem update_flip_complete_fst {t : Tile} (h : t.is_flipping = true) {now : ℚ}
    (hp : 1 ≤ (now - t.flip_start_time) / FLIP_DURATION) :
    (t.update_flip now).1 =
      { t with flip_progress := 1, is_flipping := false, revealed := !t.revealed } := by
  rw [update_flip_complete h hp]

theorem update_flip_mid_fst {t : Tile} (h : t.is_flipping = true) {now : ℚ}
    (hp : ¬1 ≤ (now - t.flip_start_time) / FLIP_DURATION) :
    (t.update_flip now).1 =
      { t with flip_progress := (now - t.flip_start_time) / FLIP_DURATION } := by
  rw [update_flip_mid h hp]

/-- C2: two consecutive clicks on distinct selectable tiles of different
colors raise the `ResolvingMismatch` gate with the second click's time as
`reset_start_time`, leaving score, match count, matched pairs and the
selection untouched; any tick at time `now'` with `now' - resetStart ≤ 1`
keeps the gate up, while the first tick with `now' - resetStart > 1` lowers
it and calls `start_flip` on every revealed unmatched tile; and under a
tick schedule that first lets both reveal flips complete (at `tm`,
within the 1-second window), then fires the reset pass (at `tr`), then
lets the flip-backs complete (at `tf`), both clicked tiles end face-down
with score, match count and matched pairs equal to their original values. -/
theorem claim2_mismatch_reset (s : GameState) (pos1 pos2 : ℤ × ℤ)
    (t1 t2 : ℚ) (m1 m2 : ℕ)
    (hw : s.waiting_for_reset = false) (htr : s.transition_active = false)
    (hts : s.tile_size ≠ 0)
    (hsel : s.selected_tile = none)
    (hout1 : ¬clickOut s pos1)
    (ta : Tile) (ha : lookupTile s.tiles (clickRC s pos1) = some ta)
    (harev : ta.revealed = false) (haflip : ta.is_flipping = false)
    (hamat : ta.matched = false)
    (hout2 : ¬clickOut s pos2)
    (hne : clickRC s pos2 ≠ clickRC s pos1)
    (tb : Tile) (hb : lookupTile s.tiles (clickRC s pos2) = some tb)
    (hbrev : tb.revealed = false) (hbflip : tb.is_flipping = false)
    (hbmat : tb.matched = false)
    (hcolor : ¬tb.color = ta.color) :
    ∃ s1 s2 : GameState, handle_click s pos1 t1 m1 = some s1 ∧
      handle_click s1 pos2 t2 m2 = some s2 ∧
      s2.waiting_for_reset = true ∧ s2.reset_start_time = t2 ∧
      s2.selected_tile = none ∧
      s2.score = s.score ∧ s2.matches_found = s.matches_found ∧
      s2.matched_pairs = s.matched_pairs ∧
      (∀ now' : ℚ, ¬1 < now' - t2 →
        (update_tiles s2 now').waiting_for_reset = true) ∧
      (∀ now' : ℚ, 1 < now' - t2 →
        (update_tiles s2 now').waiting_for_reset = false ∧
        (∀ (k : ℕ × ℕ) (t : Tile), lookupTile s2.tiles k = some t →
          t.revealed = true → t.matched = false →
          (lookupTile (update_tiles s2 now').tiles k).map
            (fun u => (u.is_flipping, u.flip_start_time)) = some (true, now'))) ∧
      (∀ tm tr tf : ℚ, t1 ≤ t2 → t2 + FLIP_DURATION ≤ tm → ¬1 < tm - t2 →
        1 < tr - t2 → tr + FLIP_DURATION ≤ tf →
        ((lookupTile (update_tiles (update_tiles (update_tiles s2 tm) tr) tf).tiles
            (clickRC s pos1)).map Tile.revealed = some false ∧
         (lookupTile (update_tiles (update_tiles (update_tiles s2 tm) tr) tf).tiles
            (clickRC s pos2)).map Tile.revealed = some false ∧
         (update_tiles (update_tiles (update_tiles s2 tm) tr) tf).score = s.score ∧
         (update_tiles (update_tiles (update_tiles s2 tm) tr) tf).matches_found
            = s.matches_found ∧
         (update_tiles (update_tiles (update_tiles s2 tm) tr) tf).matched_pairs
            = s.matched_pairs ∧
         (update_tiles (update_tiles (update_tiles s2 tm) tr) tf).waiting_for_reset
            = false)) := by
  have hFD : (0 : ℚ) < FLIP_DURATION := by rw [FLIP_DURATION]; norm_num
  have hgg : ¬(s.waiting_for_reset = true ∨ s.transition_active = true) := by
    simp [hw, htr]
  have hA1 : (ta.start_flip t1 : Tile) =
      ⟨ta.color, ta.flip_progress, true, false, t1, false⟩ := by
    show ({ ta with is_flipping := true, flip_start_time := t1 } : Tile) = _
    rw [harev, hamat]
  have hB1 : (tb.start_flip t2 : Tile) =
      ⟨tb.color, tb.flip_progress, true, false, t2, false⟩ := by
    show ({ tb with is_flipping := true, flip_start_time := t2 } : Tile) = _
    rw [hbrev, hbmat]
  have hc1 : handle_click s pos1 t1 m1 =
      some (click_first s (clickRC s pos1) t1 ta) := by
    rw [handle_click_accepted s pos1 t1 m1 ta hgg (by simpa using hts) hout1 ha
      (by simp [harev, haflip, hamat]), hsel]
  have hs1look2 : lookupTile (click_first s (clickRC s pos1) t1 ta).tiles
      (clickRC s pos2) = some tb := by
    show lookupTile (updateTileAt s.tiles (clickRC s pos1) (ta.start_flip t1))
      (clickRC s pos2) = some tb
    rw [lookupTile_updateTileAt_ne _ _ hne]
    exact hb
  have hprev1 : lookupTile (updateTileAt
      (click_first s (clickRC s pos1) t1 ta).tiles (clickRC s pos2)
      (tb.start_flip t2)) (clickRC s pos1) = some (ta.start_flip t1) := by
    rw [lookupTile_updateTileAt_ne _ _ (Ne.symm hne)]
    show lookupTile (updateTileAt s.tiles (clickRC s pos1) (ta.start_flip t1))
      (clickRC s pos1) = _
    rw [lookupTile_updateTileAt_self, ha]
    rfl
  have hc2 : handle_click (click_first s (clickRC s pos1) t1 ta) pos2 t2 m2 =
      some (click_mismatch (click_first s (clickRC s pos1) t1 ta)
        (clickRC s pos2) t2 tb) := by
    rw [handle_click_accepted (click_first s (clickRC s pos1) t1 ta) pos2 t2 m2 tb
      hgg (by simpa using hts) hout2 hs1look2
      (by simp [hbrev, hbflip, hbmat])]
    show click_second (click_first s (clickRC s pos1) t1 ta) (clickRC s pos2)
      (clickRC s pos1) t2 m2 tb = _
    rw [click_second_eq _ _ _ t2 m2 tb (ta.start_flip t1) hprev1]
    rw [if_neg (show ¬tb.color = (ta.start_flip t1).color from hcolor)]
  refine ⟨click_first s (clickRC s pos1) t1 ta,
    click_mismatch (click_first s (clickRC s pos1) t1 ta) (clickRC s pos2) t2 tb,
    hc1, hc2, rfl, rfl, rfl, rfl, rfl, rfl, ?_, ?_, ?_⟩
  · intro now' hq
    rw [update_tiles_quiet _ now' (fun hcc => hq hcc.2)]
    rfl
  · intro now' hgt
    constructor
    · rw [update_tiles_fired _ now' ⟨rfl, hgt⟩]
    · intro k t hlk hrevk hmatk
      rw [lookupTile_update_tiles_fired _ now' k ⟨rfl, hgt⟩, hlk]
      show some ((((passTile now' t).update_flip now').1).is_flipping,
        (((passTile now' t).update_flip now').1).flip_start_time) = some (true, now')
      rw [show passTile now' t = t.start_flip now' from by
        unfold passTile
        rw [if_pos ⟨hrevk, hmatk⟩]]
      rw [update_flip_mid_fst rfl (by
        show ¬1 ≤ (now' - now') / FLIP_DURATION
        rw [sub_self, zero_div]
        norm_num)]
      rfl
  · intro tm tr tf h12 hmge hmlt hrgt hfge
    have hpa : 1 ≤ (tm - t1) / FLIP_DURATION := (one_le_div hFD).mpr (by linarith)
    have hpb : 1 ≤ (tm - t2) / FLIP_DURATION := (one_le_div hFD).mpr (by linarith)
    have hpf : 1 ≤ (tf - tr) / FLIP_DURATION := (one_le_div hFD).mpr (by linarith)
    have hp0 : ¬1 ≤ ((tr : ℚ) - tr) / FLIP_DURATION := by
      rw [sub_self, zero_div]
      norm_num
    have e1a : lookupTile (click_mismatch (click_first s (clickRC s pos1) t1 ta)
        (clickRC s pos2) t2 tb).tiles (clickRC s pos1) =
        some (⟨ta.color, ta.flip_progress, true, false, t1, false⟩ : Tile) := by
      show lookupTile (updateTileAt
        (click_first s (clickRC s pos1) t1 ta).tiles (clickRC s pos2)
        (tb.start_flip t2)) (clickRC s pos1) = _
      rw [hprev1, hA1]
    have e1b : lookupTile (click_mismatch (click_first s (clickRC s pos1) t1 ta)
        (clickRC s pos2) t2 tb).tiles (clickRC s pos2) =
        some (⟨tb.color, tb.flip_progress, true, false, t2, false⟩ : Tile) := by
      show lookupTile (updateTileAt
        (click_first s (clickRC s pos1) t1 ta).tiles (clickRC s pos2)
        (tb.start_flip t2)) (clickRC s pos2) = _
      rw [lookupTile_updateTileAt_self, hs1look2, hB1]
      rfl
    have hqm : ¬((click_mismatch (click_first s (clickRC s pos1) t1 ta)
        (clickRC s pos2) t2 tb).waiting_for_reset = true ∧
        1 < tm - (click_mismatch (click_first s (clickRC s pos1) t1 ta)
        (clickRC s pos2) t2 tb).reset_start_time) := fun hcc => hmlt hcc.2
    have hA2 : lookupTile (update_tiles (click_mismatch
        (click_first s (clickRC s pos1) t1 ta) (clickRC s pos2) t2 tb) tm).tiles
        (clickRC s pos1) = some (⟨ta.color, 1, false, true, t1, false⟩ : Tile) := by
      rw [lookupTile_update_tiles_quiet _ tm _ hqm, e1a]
      show some (((⟨ta.color, ta.flip_progress, true, false, t1, false⟩ :
        Tile).update_flip tm).1) = _
      rw [@update_flip_complete_fst
        (⟨ta.color, ta.flip_progress, true, false, t1, false⟩ : Tile) rfl tm hpa]
      rfl
    have hB2 : lookupTile (update_tiles (click_mismatch
        (click_first s (clickRC s pos1) t1 ta) (clickRC s pos2) t2 tb) tm).tiles
        (clickRC s pos2) = some (⟨tb.color, 1, false, true, t2, false⟩ : Tile) := by
      rw [lookupTile_update_tiles_quiet _ tm _ hqm, e1b]
      show some (((⟨tb.color, tb.flip_progress, true, false, t2, false⟩ :
        Tile).update_flip tm).1) = _
      rw [@update_flip_complete_fst
        (⟨tb.color, tb.flip_progress, true, false, t2, false⟩ : Tile) rfl tm hpb]
      rfl
    have hfired : (update_tiles (click_mismatch
        (click_first s (clickRC s pos1) t1 ta) (clickRC s pos2) t2 tb)
        tm).waiting_for_reset = true ∧
        1 < tr - (update_tiles (click_mismatch
        (click_first s (clickRC s pos1) t1 ta) (clickRC s pos2) t2 tb)
        tm).reset_start_time := by
      constructor
      · rw [update_tiles_quiet _ tm hqm]
        rfl
      · rw [update_tiles_reset_start]
        exact hrgt
    have hA3 : lookupTile (update_tiles (update_tiles (click_mismatch
        (click_first s (clickRC s pos1) t1 ta) (clickRC s pos2) t2 tb) tm) tr).tiles
        (clickRC s pos1) =
        some (⟨ta.color, (tr - tr) / FLIP_DURATION, true, true, tr, false⟩ : Tile) := by
      rw [lookupTile_update_tiles_fired _ tr _ hfired, hA2]
      show some (((passTile tr (⟨ta.color, 1, false, true, t1, false⟩ :
        Tile)).update_flip tr).1) = _
      rw [show passTile tr (⟨ta.color, 1, false, true, t1, false⟩ : Tile) =
          (⟨ta.color, 1, true, true, tr, false⟩ : Tile) from by
        unfold passTile
        rw [if_pos ⟨rfl, rfl⟩]
        rfl]
      rw [@update_flip_mid_fst (⟨ta.color, 1, true, true, tr, false⟩ : Tile) rfl
        tr hp0]
    have hB3 : lookupTile (update_tiles (update_tiles (click_mismatch
        (click_first s (clickRC s pos1) t1 ta) (clickRC s pos2) t2 tb) tm) tr).tiles
        (clickRC s pos2) =
        some (⟨tb.color, (tr - tr) / FLIP_DURATION, true, true, tr, false⟩ : Tile) := by
      rw [lookupTile_update_tiles_fired _ tr _ hfired, hB2]
      show some (((passTile tr (⟨tb.color, 1, false, true, t2, false⟩ :
        Tile)).update_flip tr).1) = _
      rw [show passTile tr (⟨tb.color, 1, false, true, t2, false⟩ : Tile) =
          (⟨tb.color, 1, true, true, tr, false⟩ : Tile) from by
        unfold passTile
        rw [if_pos ⟨rfl, rfl⟩]
        rfl]
      rw [@update_flip_mid_fst (⟨tb.color, 1, true, true, tr, false⟩ : Tile) rfl
        tr hp0]
    have h4w : (update_tiles (update_tiles (click_mismatch
        (click_first s (clickRC s pos1) t1 ta) (clickRC s pos2) t2 tb) tm)
        tr).waiting_for_reset = false := by
      rw [update_tiles_fired _ tr hfired]
    have hq5 : ¬((update_tiles (update_tiles (click_mismatch
        (click_first s (clickRC s pos1) t1 ta) (clickRC s pos2) t2 tb) tm)
        tr).waiting_for_reset = true ∧
        1 < tf - (update_tiles (update_tiles (click_mismatch
        (click_first s (clickRC s pos1) t1 ta) (clickRC s pos2) t2 tb) tm)
        tr).reset_start_time) := by
      rw [h4w]
      simp
    refine ⟨?_, ?_, ?_, ?_, ?_, ?_⟩
    · rw [lookupTile_update_tiles_quiet _ tf _ hq5, hA3]
      show some (((⟨ta.color, (tr - tr) / FLIP_DURATION, true, true, tr, false⟩ :
        Tile).update_flip tf).1.revealed) = some false
      rw [@update_flip_complete_fst
        (⟨ta.color, (tr - tr) / FLIP_DURATION, true, true, tr, false⟩ : Tile) rfl
        tf hpf]
      rfl
    · rw [lookupTile_update_tiles_quiet _ tf _ hq5, hB3]
      show some (((⟨tb.color, (tr - tr) / FLIP_DURATION, true, true, tr, false⟩ :
        Tile).update_flip tf).1.revealed) = some false
      rw [@update_flip_complete_fst
        (⟨tb.color, (tr - tr) / FLIP_DURATION, true, true, tr, false⟩ : Tile) rfl
        tf hpf]
      rfl
    · rw [update_tiles_score, update_tiles_score, update_tiles_score]
      rfl
    · rw [update_tiles_matches_found, update_tiles_matches_found,
        update_tiles_matches_found]
      rfl
    · rw [update_tiles_matched_pairs, update_tiles_matched_pairs,
        update_tiles_matched_pairs]
      rfl
    · exact update_tiles_waiting_of_false _ tf h4w

/-! ### Claim C10: a skipped reset leaves a tile stranded (until a later
mismatch) -/

theorem stuck_tile_ticks (k : ℕ × ℕ) (t : Tile) (hflip : t.is_flipping = false) :
    ∀ (ts : List ℚ) (s : GameState), lookupTile s.tiles k = some t →
      s.waiting_for_reset = false →
      lookupTile (foldTicks s ts).tiles k = some t ∧
      (foldTicks s ts).matches_found = s.matches_found ∧
      (foldTicks s ts).grid_size = s.grid_size ∧
      (foldTicks s ts).waiting_for_reset = false := by
  intro ts
  induction ts with
  | nil => exact fun s hl hw => ⟨hl, rfl, rfl, hw⟩
  | cons τ rest ih =>
    intro s hl hw
    have hq : ¬(s.waiting_for_reset = true ∧ 1 < τ - s.reset_start_time) := by
      simp [hw]
    have hl1 : lookupTile (update_tiles s τ).tiles k = some t := by
      rw [lookupTile_update_tiles_quiet s τ k hq, hl]
      show some ((t.update_flip τ).1) = some t
      rw [update_flip_of_not_flipping hflip]
    have hw1 : (update_tiles s τ).waiting_for_reset = false :=
      update_tiles_waiting_of_false s τ hw
    obtain ⟨a, b, c, d⟩ := ih (update_tiles s τ) hl1 hw1
    refine ⟨a, ?_, ?_, d⟩
    · show (foldTicks (update_tiles s τ) rest).matches_found = s.matches_found
      rw [b, update_tiles_matches_found]
    · show (foldTicks (update_tiles s τ) rest).grid_size = s.grid_size
      rw [c, update_tiles_grid_size]

/-- C10 amended: a tile that ends up `revealed` and unmatched with the gate
down — exactly the state produced when the reset pass runs before the
tile's reveal flip has completed, as in the counterexample — keeps that
state under every further sequence of ticks (so `matches_found` and
`grid_size` are frozen under ticks, and a `matches_found` deficit can never
close by ticking), and every later click on that tile is rejected as a
no-op.  The board is however not permanently unwinnable: a later mismatch
re-arms the gate and its reset pass flips the stranded tile back face-down
(see the counterexample's continuation). -/
theorem claim10_stuck_until_mismatch (s : GameState) (k : ℕ × ℕ) (t : Tile)
    (hl : lookupTile s.tiles k = some t) (hrev : t.revealed = true)
    (hmat : t.matched = false) (hflip : t.is_flipping = false)
    (hw : s.waiting_for_reset = false) :
    (∀ ts : List ℚ,
      lookupTile (foldTicks s ts).tiles k = some t ∧
      (foldTicks s ts).matches_found = s.matches_found ∧
      (foldTicks s ts).waiting_for_reset = false) ∧
    (s.matches_found < s.grid_size * s.grid_size / 2 → ∀ ts : List ℚ,
      (foldTicks s ts).matches_found
        < (foldTicks s ts).grid_size * (foldTicks s ts).grid_size / 2) ∧
    (∀ (pos : ℤ × ℤ) (now : ℚ) (m : ℕ), s.tile_size ≠ 0 →
      clickRC s pos = k → handle_click s pos now m = some s) := by
  refine ⟨?_, ?_, ?_⟩
  · intro ts
    obtain ⟨a, b, _, d⟩ := stuck_tile_ticks k t hflip ts s hl hw
    exact ⟨a, b, d⟩
  · intro hlt ts
    obtain ⟨_, b, c, _⟩ := stuck_tile_ticks k t hflip ts s hl hw
    rw [b, c]
    exact hlt
  · intro pos now m hts hmap
    unfold handle_click
    by_cases hg : s.waiting_for_reset = true ∨ s.transition_active = true
    · rw [if_pos hg]
    · rw [if_neg hg, if_neg hts]
      by_cases hout : clickOut s pos
      · rw [if_pos hout]
      · rw [if_neg hout, hmap, hl]
        show (if t.revealed = true ∨ t.is_flipping = true ∨ t.matched = true
          then some s else _) = some s
        rw [if_pos (Or.inl hrev)]


theorem reach_exInit : Reach exInit := Reach.start 800 600 _ (List.Perm.refl _)

theorem reach_exActive : Reach exActive :=
  Reach.tick 3 _ (List.Perm.refl _) reach_exInit

theorem reach_exSel : Reach exSel :=
  Reach.click (240, 220) 4 0 reach_exActive rfl rfl rfl

theorem reach_exMatched : Reach exMatched :=
  Reach.click (320, 220) 5 0 reach_exSel rfl rfl rfl

theorem reach_exStuck3 : Reach exStuck3 :=
  Reach.tick (22/5) _ (List.Perm.refl _) reach_exSel

theorem reach_exStuck4 : Reach exStuck4 :=
  Reach.click (400, 220) (9/2) 0 reach_exStuck3 rfl rfl rfl

theorem reach_exStuck5 : Reach exStuck5 :=
  Reach.tick 6 _ (List.Perm.refl _) reach_exStuck4

theorem reach_exStuck : Reach exStuck :=
  Reach.tick (13/2) _ (List.Perm.refl _) reach_exStuck5

theorem reach_exResc7 : Reach exResc7 :=
  Reach.click (240, 300) 7 0 reach_exStuck rfl rfl rfl

theorem reach_exResc8 : Reach exResc8 :=
  Reach.tick (37/5) _ (List.Perm.refl _) reach_exResc7

theorem reach_exResc9 : Reach exResc9 :=
  Reach.click (400, 300) (15/2) 0 reach_exResc8 rfl rfl rfl

theorem reach_exResc10 : Reach exResc10 :=
  Reach.tick 9 _ (List.Perm.refl _) reach_exResc9

theorem reach_exRescued : Reach exRescued :=
  Reach.tick (19/2) _ (List.Perm.refl _) reach_exResc10

/-! ### Counterexamples and concrete instances -/

/-- C5 counterexample: in the reachable state `exMatched` — obtained by
matching tiles (0, 0) and (0, 1) at times 4 and 5 on the 800×600 board —
tile (0, 1) is `matched = True` yet `revealed = False`: the code sets
`matched` on the second tile of a pair while its reveal flip (started by
the same click) is still pending, so "matched ⇒ revealed" fails. -/
theorem claim5_matched_implies_revealed_refuted :
    Reach exMatched ∧
    (lookupTile exMatched.tiles (0, 1)).map
      (fun t => (t.matched, t.revealed, t.is_flipping)) = some (true, false, true) :=
  ⟨reach_exMatched, by decide⟩

/-- Witness for C5's amended theorem at the concrete reachable state
`exMatched`. -/
theorem claim5_matched_face_up_or_flipping_instance :
    (∀ kt ∈ exMatched.tiles, kt.2.matched = true →
      (kt.2.revealed = true ∨ kt.2.is_flipping = true)) ∧
    (∀ (pos : ℤ × ℤ) (now : ℚ) (m : ℕ) (s' : GameState),
      handle_click exMatched pos now m = some s' → s' ≠ exMatched →
      ∃ t, lookupTile exMatched.tiles (clickRC exMatched pos) = some t ∧
        t.revealed = false ∧ t.is_flipping = false ∧ t.matched = false) :=
  claim5_matched_face_up_or_flipping exMatched reach_exMatched

/-- C10 counterexample: `exStuck` realizes the claim's scenario — after the
mismatch at time 9/2 the first `update_tiles` call comes only at 6, its
reset pass skips tile (0, 2) (whose reveal flip is still incomplete) and
lowers the gate, and the flip then completes in the same call, leaving
(0, 2) revealed, unmatched and idle with the gate down, 0 of 8 matches
found.  But the board is not permanently unwinnable: `exRescued`, reached
from `exStuck` by a further mismatch (tiles (1, 0) and (1, 2)) and two
frames, has (0, 2) face-down again — the second mismatch's reset pass
flips it back. -/
theorem claim10_permanently_unwinnable_refuted :
    Reach exStuck ∧
    (lookupTile exStuck.tiles (0, 2)).map
      (fun t => (t.revealed, t.matched, t.is_flipping)) = some (true, false, false) ∧
    exStuck.waiting_for_reset = false ∧
    exStuck.matches_found < exStuck.grid_size * exStuck.grid_size / 2 ∧
    Reach exRescued ∧
    (lookupTile exRescued.tiles (0, 2)).map
      (fun t => (t.revealed, t.matched)) = some (false, false) :=
  ⟨reach_exStuck, by decide, by decide, by decide, reach_exRescued, by decide⟩

/-- Witness for C10's amended theorem at `exStuck` with the stranded tile
(0, 2). -/
theorem claim10_stuck_until_mismatch_instance :
    lookupTile exStuck.tiles (0, 2) =
      some (⟨(39, 174, 96), 1, false, true, 9/2, false⟩ : Tile) ∧
    exStuck.waiting_for_reset = false ∧
    ((∀ ts : List ℚ,
       lookupTile (foldTicks exStuck ts).tiles (0, 2) =
         some (⟨(39, 174, 96), 1, false, true, 9/2, false⟩ : Tile) ∧
       (foldTicks exStuck ts).matches_found = exStuck.matches_found ∧
       (foldTicks exStuck ts).waiting_for_reset = false) ∧
     (exStuck.matches_found < exStuck.grid_size * exStuck.grid_size / 2 →
       ∀ ts : List ℚ,
       (foldTicks exStuck ts).matches_found
         < (foldTicks exStuck ts).grid_size * (foldTicks exStuck ts).grid_size / 2) ∧
     (∀ (pos : ℤ × ℤ) (now : ℚ) (m : ℕ), exStuck.tile_size ≠ 0 →
       clickRC exStuck pos = (0, 2) →
       handle_click exStuck pos now m = some exStuck)) :=
  ⟨by decide, by decide,
   claim10_stuck_until_mismatch exStuck (0, 2)
     (⟨(39, 174, 96), 1, false, true, 9/2, false⟩ : Tile)
     (by decide) (by decide) (by decide) (by decide) (by decide)⟩

/-- Witness for C1 at the concrete reachable state `exSel` (tile (0, 0)
selected at time 4): clicking (320, 220) ↦ tile (0, 1), same color, at
time 5. -/
theorem claim1_match_click_instance :
    ∃ s', handle_click exSel (320, 220) 5 0 = some s' ∧
      (lookupTile s'.tiles (0, 1)).map Tile.matched = some true ∧
      (lookupTile s'.tiles (0, 0)).map Tile.matched = some true ∧
      (0, 1) ∈ s'.matched_pairs ∧ (0, 0) ∈ s'.matched_pairs ∧
      s'.matches_found = exSel.matches_found + 1 ∧
      s'.score = exSel.score + 10 * exSel.level ∧
      s'.message ∈ SCIENCE_MESSAGES ∧
      s'.selected_tile = none ∧
      (∀ ts1 ts2 : List ℚ,
        ((lookupTile (foldTicks s' ts1).tiles (0, 1)).map Tile.revealed
            = some true →
          (lookupTile (foldTicks s' (ts1 ++ ts2)).tiles (0, 1)).map
            Tile.revealed = some true) ∧
        ((lookupTile (foldTicks s' ts1).tiles (0, 0)).map Tile.revealed = some true →
          (lookupTile (foldTicks s' (ts1 ++ ts2)).tiles (0, 0)).map Tile.revealed
            = some true)) :=
  claim1_match_click exSel (320, 220) 5 0 reach_exSel (by decide) (by decide)
    (by decide) (by decide) (0, 0) (by decide)
    (freshTile (255, 67, 89)) (by decide) (by decide) (by decide) (by decide)
    (⟨(255, 67, 89), 0, true, false, 4, false⟩ : Tile) (by decide) (by decide)

/-- Witness for C2 at the concrete reachable state `exActive`: clicks on
(240, 220) ↦ (0, 0) (color c0) at 4 and (400, 220) ↦ (0, 2) (color c1) at
5 mismatch; the schedule tm = 11/2, tr = 61/10, tf = 13/2 satisfies the
window hypotheses. -/
theorem claim2_mismatch_reset_instance :
    ((5 : ℚ) + FLIP_DURATION ≤ 11/2 ∧ ¬(1 : ℚ) < 11/2 - 5 ∧
      (1 : ℚ) < 61/10 - 5 ∧ (61/10 : ℚ) + FLIP_DURATION ≤ 13/2) ∧
    (∃ s1 s2 : GameState, handle_click exActive (240, 220) 4 0 = some s1 ∧
      handle_click s1 (400, 220) 5 0 = some s2 ∧
      s2.waiting_for_reset = true ∧ s2.reset_start_time = 5 ∧
      s2.selected_tile = none ∧
      s2.score = exActive.score ∧ s2.matches_found = exActive.matches_found ∧
      s2.matched_pairs = exActive.matched_pairs ∧
      (∀ now' : ℚ, ¬1 < now' - 5 →
        (update_tiles s2 now').waiting_for_reset = true) ∧
      (∀ now' : ℚ, 1 < now' - 5 →
        (update_tiles s2 now').waiting_for_reset = false ∧
        (∀ (k : ℕ × ℕ) (t : Tile), lookupTile s2.tiles k = some t →
          t.revealed = true → t.matched = false →
          (lookupTile (update_tiles s2 now').tiles k).map
            (fun u => (u.is_flipping, u.flip_start_time)) = some (true, now'))) ∧
      (∀ tm tr tf : ℚ, (4 : ℚ) ≤ 5 → 5 + FLIP_DURATION ≤ tm → ¬1 < tm - 5 →
        1 < tr - 5 → tr + FLIP_DURATION ≤ tf →
        ((lookupTile (update_tiles (update_tiles (update_tiles s2 tm) tr) tf).tiles
            (0, 0)).map Tile.revealed = some false ∧
         (lookupTile (update_tiles (update_tiles (update_tiles s2 tm) tr) tf).tiles
            (0, 2)).map Tile.revealed = some false ∧
         (update_tiles (update_tiles (update_tiles s2 tm) tr) tf).score
            = exActive.score ∧
         (update_tiles (update_tiles (update_tiles s2 tm) tr) tf).matches_found
            = exActive.matches_found ∧
         (update_tiles (update_tiles (update_tiles s2 tm) tr) tf).matched_pairs
            = exActive.matched_pairs ∧
         (update_tiles (update_tiles (update_tiles s2 tm) tr) tf).waiting_for_reset
            = false))) :=
  ⟨by rw [FLIP_DURATION]; norm_num,
   claim2_mismatch_reset exActive (240, 220) (400, 220) 4 5 0 0
     (by decide) (by decide) (by decide) (by decide) (by decide)
     (freshTile (255, 67, 89)) (by decide) (by decide) (by decide) (by decide)
     (by decide) (by decide)
     (freshTile (39, 174, 96)) (by decide) (by decide) (by decide) (by decide)
     (by decide)⟩

/-- Witness for C3 at concrete states: `exDone` completes level 1 at time
6; `exDwell` dwells (7 − 6 < 2) and advances to level 2 at time 9; `exDone2`
completes the game at time 9. -/
theorem claim3_level_transition_instance :
    ((run_frame exDone 6 (colorPairsFor 2)).transition_active = true ∧
     (run_frame exDone 6 (colorPairsFor 2)).transition_start_time = 6 ∧
     (run_frame exDone 6 (colorPairsFor 2)).level = exDone.level ∧
     (run_frame exDone 6 (colorPairsFor 2)).matches_found = exDone.matches_found ∧
     (run_frame exDone 6 (colorPairsFor 2)).game_complete = exDone.game_complete) ∧
    ((run_frame exDwell 7 (colorPairsFor 2)).transition_active = true ∧
     (run_frame exDwell 7 (colorPairsFor 2)).transition_start_time
        = exDwell.transition_start_time ∧
     (run_frame exDwell 7 (colorPairsFor 2)).level = exDwell.level ∧
     (run_frame exDwell 7 (colorPairsFor 2)).game_complete
        = exDwell.game_complete) ∧
    ((run_frame exDwell 9 (colorPairsFor 2)).level = 2 ∧
     (run_frame exDwell 9 (colorPairsFor 2)).matches_found = 0 ∧
     (run_frame exDwell 9 (colorPairsFor 2)).matched_pairs = [] ∧
     (run_frame exDwell 9 (colorPairsFor 2)).selected_tile = none ∧
     (run_frame exDwell 9 (colorPairsFor 2)).transition_active = false ∧
     (run_frame exDwell 9 (colorPairsFor 2)).grid_size = 5 ∧
     (run_frame exDwell 9 (colorPairsFor 2)).tiles
        = mkTilesLevel 2 (colorPairsFor 2)) ∧
    (run_frame exDone2 9 (colorPairsFor 2)).game_complete = true :=
  ⟨(claim3_level_transition exDone 6 (colorPairsFor 2)).1 (by decide) (by decide),
   (claim3_level_transition exDwell 7 (colorPairsFor 2)).2.1 (by decide)
     (by decide) (by decide),
   (claim3_level_transition exDwell 9 (colorPairsFor 2)).2.2.1 (by decide)
     (by decide) (by decide) (by decide) (by decide),
   (claim3_level_transition exDone2 9 (colorPairsFor 2)).2.2.2 (by decide)
     (by decide) (by decide) (by decide) (by decide)⟩

/-- Witness for C4's amended theorem: a fresh black tile, flip started at
0 and advanced at 1 (the flip completes, `revealed` toggles to `true`). -/
theorem claim4_advance_toggle_instance :
    (0 : ℚ) ≤ 1 ∧
    ((((freshTile (0, 0, 0)).start_flip 0).update_flip 1).1.flip_progress =
      max 0 (min ((1 - 0) / FLIP_DURATION) 1) ∧
     ((0 : ℚ) + FLIP_DURATION ≤ 1 →
       (((freshTile (0, 0, 0)).start_flip 0).update_flip 1).1.is_flipping = false ∧
       (((freshTile (0, 0, 0)).start_flip 0).update_flip 1).1.revealed =
         !(freshTile (0, 0, 0)).revealed) ∧
     ((1 : ℚ) < 0 + FLIP_DURATION →
       (((freshTile (0, 0, 0)).start_flip 0).update_flip 1).1.is_flipping = true ∧
       (((freshTile (0, 0, 0)).start_flip 0).update_flip 1).1.revealed =
         (freshTile (0, 0, 0)).revealed) ∧
     (∀ u : Tile, u.is_flipping = false → ∀ ts : List ℚ,
       ts.foldl (fun x τ => (x.update_flip τ).1) u = u)) :=
  ⟨by norm_num, claim4_advance_toggle (freshTile (0, 0, 0)) 0 1 (by norm_num)⟩

/-- Witness for C6 at `exSel`: the second click of the matching pair clears
the selection. -/
theorem claim6_second_click_clears_instance :
    exSel.selected_tile = some (0, 0) ∧
    handle_click exSel (320, 220) 5 0 = some exMatched ∧ exMatched ≠ exSel ∧
    exMatched.selected_tile = none :=
  ⟨by decide, by decide, by decide,
   claim6_second_click_clears exSel (320, 220) 5 0 (0, 0) (by decide) exMatched
     (by decide) (by decide)⟩

/-- Witness for C7, one concrete state per conjunct: gate up (`exStuck4`),
out-of-bounds click, empty dictionary (`exEmpty`), revealed target
(`exStuck` and tile (0, 2)), and totality at the reachable `exSel`. -/
theorem claim7_noop_and_total_instance :
    handle_click exStuck4 (240, 220) 7 0 = some exStuck4 ∧
    handle_click exActive (0, 0) 4 0 = some exActive ∧
    handle_click exEmpty (240, 220) 4 0 = some exEmpty ∧
    handle_click exStuck (400, 220) 7 0 = some exStuck ∧
    (handle_click exSel (320, 220) 5 0).isSome = true :=
  ⟨claim7_noop_and_total.1 exStuck4 (240, 220) 7 0 (Or.inl (by decide)),
   claim7_noop_and_total.2.1 exActive (0, 0) 4 0 (by decide) (by decide),
   claim7_noop_and_total.2.2.1 exEmpty (240, 220) 4 0 (by decide) (by decide),
   claim7_noop_and_total.2.2.2.1 exStuck (400, 220) 7 0
     (⟨(39, 174, 96), 1, false, true, 9/2, false⟩ : Tile) (by decide) (by decide)
     (by decide),
   claim7_noop_and_total.2.2.2.2 exSel (320, 220) 5 0 reach_exSel (by decide)⟩

/-- Witness for C8 at level 1 with the identity shuffle. -/
theorem claim8_board_pairing_instance :
    ((1 : ℕ) = 1 ∨ (1 : ℕ) = 2) ∧
    ((∀ c : RGB,
       Even (((mkTilesLevel 1 (colorPairsFor 1)).map fun kt => kt.2.color).count c)) ∧
     (mkTilesLevel 1 (colorPairsFor 1)).length = (if (1 : ℕ) = 1 then 16 else 24) ∧
     (∀ c ∈ colorsFor 1,
       ((mkTilesLevel 1 (colorPairsFor 1)).map fun kt => kt.2.color).count c = 2)) :=
  ⟨Or.inl rfl,
   claim8_board_pairing 1 (colorPairsFor 1) (Or.inl rfl) (List.Perm.refl _)⟩
